import Mathlib

/-!
# Washing machine controller (`src/main.c`)

Shallow embedding of the AVR washing machine controller.  The global
`volatile` variables of the C program and the two output registers it
writes (`PORTA`, `PORTB`) are collected in one record, and every C function
becomes a function from state to state.  The input register `PIND` is a
parameter of the timer handler, the only place where it is read.

Machine integers are natural numbers; the two places where the C code does
arithmetic that can wrap (`count++` on a `uint32_t` and
`rinse_cycles_completed += 1` on a `uint8_t`) reduce explicitly.
`duty_cycle` is a `double` in the source, but it is only ever assigned the
integer literals 100, 90, 50 and 10, so it is kept as a natural number.
The PWM handler `ISR(TIMER0_OVF_vect)` copies `duty_cycle` into the compare
register `OCR0B` and writes none of the variables below; it is left out, as
is the register setup at the top of `main`.
-/

namespace WashingMachine

/-- The global variables of `main.c` together with the output registers
`PORTA` (seven segment display) and `PORTB` (LEDs L0 to L3). -/
structure State where
  operational_mode : Nat
  initial_operational_mode : Nat
  water_level : Nat
  initial_water_level : Nat
  running : Nat
  wash : Nat
  rinse : Nat
  rinse_cycles_completed : Nat
  spin : Nat
  finished : Nat
  duty_cycle : Nat
  count : Nat
  ssd_cc : Nat
  PORTA : Nat
  PORTB : Nat
  deriving DecidableEq, Repr

/-- The values of the globals after their initialisers have run
(`main.c` lines 54 to 170); the output registers are zero after a reset of
the microcontroller. -/
def init : State :=
  { operational_mode := 0
    initial_operational_mode := 0
    water_level := 0
    initial_water_level := 0
    running := 0
    wash := 0
    rinse := 0
    rinse_cycles_completed := 0
    spin := 0
    finished := 0
    duty_cycle := 100
    count := 0
    ssd_cc := 0
    PORTA := 0
    PORTB := 0 }

/-- The table `ssd_values[7]` of `main.c` line 163. -/
def ssd_values : List Nat := [8, 1, 64, 121, 84, 121, 63]

/-- The C expression `a != b`, whose value is the integer 1 or 0. -/
def c_ne (a b : Nat) : Nat := if a ≠ b then 1 else 0

/-- The function `start` (`main.c` lines 364 to 394). -/
def start (s : State) : State :=
  if s.water_level = 3 then
    s
  else if s.running ≠ 0 then
    s
  else
    let s := { s with running := 1 }
    let s := { s with wash := 1 }
    let s := { s with count := 0 }
    let s := { s with finished := 0 }
    let s := { s with rinse_cycles_completed := 0 }
    let s := { s with initial_operational_mode := s.operational_mode }
    { s with initial_water_level := s.water_level }

/-- The function `reset` (`main.c` lines 397 to 409). -/
def reset (s : State) : State :=
  let s := { s with running := 0 }
  let s := { s with wash := 0 }
  let s := { s with rinse := 0 }
  let s := { s with rinse_cycles_completed := 0 }
  let s := { s with spin := 0 }
  let s := { s with duty_cycle := 100 }
  { s with finished := 0 }

/-- A write of `v` to the register `PORTB`. -/
def setPORTB (s : State) (v : Nat) : State := { s with PORTB := v }

/-- The function `washing` (`main.c` lines 413 to 487).  Where the source
writes `PORTB` twice in a row both writes are kept, in order. -/
def washing (s : State) : State :=
  let s := { s with duty_cycle := 90 }
  if s.count < 350 then
    setPORTB s (1 <<< 0)
  else if s.count < 700 then
    setPORTB (setPORTB s (0 <<< 0)) (1 <<< 1)
  else if s.count < 1050 then
    setPORTB (setPORTB s (0 <<< 1)) (1 <<< 2)
  else if s.count < 1400 then
    setPORTB (setPORTB s (0 <<< 2)) (1 <<< 3)
  else if s.count < 1500 then
    setPORTB s 0x0
  else if s.count < 1850 then
    setPORTB (setPORTB s (0 <<< 3)) (1 <<< 0)
  else if s.count < 2200 then
    setPORTB (setPORTB s (0 <<< 0)) (1 <<< 1)
  else if s.count < 2550 then
    setPORTB (setPORTB s (0 <<< 1)) (1 <<< 2)
  else if s.count < 2900 then
    setPORTB (setPORTB s (0 <<< 2)) (1 <<< 3)
  else if s.count < 3000 then
    setPORTB s 0x0
  else if s.count < 6000 then
    setPORTB s 0xF
  else
    let s := setPORTB s 0x00
    let s := { s with wash := 0 }
    let s := { s with rinse := 1 }
    { s with count := 0 }

/-- The last branch of `rinsing` (`main.c` lines 575 to 607): the rinse
phase has run for 6000 ms. -/
def rinsing_complete (s : State) : State :=
  let s := { s with rinse_cycles_completed := (s.rinse_cycles_completed + 1) % 256 }
  if s.operational_mode ≠ 0 then
    let s := if s.rinse_cycles_completed = 1 then { s with count := 0 } else s
    if s.rinse_cycles_completed = 2 then
      let s := { s with rinse := 0 }
      let s := { s with spin := 1 }
      { s with count := 0 }
    else s
  else
    let s := { s with rinse := 0 }
    let s := { s with spin := 1 }
    { s with count := 0 }

/-- The function `rinsing` (`main.c` lines 491 to 608). -/
def rinsing (s : State) : State :=
  let s := { s with duty_cycle := 50 }
  if s.count < 350 then
    setPORTB s (1 <<< 3)
  else if s.count < 700 then
    setPORTB (setPORTB s (0 <<< 3)) (1 <<< 2)
  else if s.count < 1050 then
    setPORTB (setPORTB s (0 <<< 2)) (1 <<< 1)
  else if s.count < 1400 then
    setPORTB (setPORTB s (0 <<< 1)) (1 <<< 0)
  else if s.count < 1500 then
    setPORTB s 0x0
  else if s.count < 1850 then
    setPORTB (setPORTB s (0 <<< 0)) (1 <<< 3)
  else if s.count < 2200 then
    setPORTB (setPORTB s (0 <<< 3)) (1 <<< 2)
  else if s.count < 2550 then
    setPORTB (setPORTB s (0 <<< 2)) (1 <<< 1)
  else if s.count < 2900 then
    setPORTB (setPORTB s (0 <<< 1)) (1 <<< 0)
  else if s.count < 3000 then
    setPORTB s 0x0
  else if s.count < 3500 then
    setPORTB s 0xF
  else if s.count < 4000 then
    setPORTB s 0x0
  else if s.count < 4500 then
    setPORTB s 0xF
  else if s.count < 5000 then
    setPORTB s 0x0
  else if s.count < 5500 then
    setPORTB s 0xF
  else if s.count < 6000 then
    setPORTB s 0x0
  else
    rinsing_complete s

/-- The function `spinning` (`main.c` lines 612 to 731). -/
def spinning (s : State) : State :=
  let s := { s with duty_cycle := 10 }
  if s.count < 375 then
    setPORTB s (1 <<< 3)
  else if s.count < 750 then
    setPORTB (setPORTB s (0 <<< 3)) (1 <<< 2)
  else if s.count < 1125 then
    setPORTB (setPORTB s (0 <<< 2)) (1 <<< 1)
  else if s.count < 1350 then
    setPORTB (setPORTB s (0 <<< 1)) (1 <<< 0)
  else if s.count < 1500 then
    setPORTB s 0x0
  else if s.count < 1875 then
    setPORTB (setPORTB s (0 <<< 3)) (1 <<< 0)
  else if s.count < 2250 then
    setPORTB (setPORTB s (0 <<< 0)) (1 <<< 1)
  else if s.count < 2625 then
    setPORTB (setPORTB s (0 <<< 1)) (1 <<< 2)
  else if s.count < 2850 then
    setPORTB (setPORTB s (0 <<< 2)) (1 <<< 3)
  else if s.count < 3000 then
    setPORTB s 0x0
  else if s.count < 3250 then
    setPORTB s 0xF
  else if s.count < 3500 then
    setPORTB s 0x0
  else if s.count < 3750 then
    setPORTB s 0xF
  else if s.count < 4000 then
    setPORTB s 0x0
  else if s.count < 4250 then
    setPORTB s 0xF
  else if s.count < 4500 then
    setPORTB s 0x0
  else if s.count < 4750 then
    setPORTB s 0xF
  else if s.count < 5000 then
    setPORTB s 0x0
  else if s.count < 5250 then
    setPORTB s 0xF
  else if s.count < 5500 then
    setPORTB s 0x0
  else if s.count < 5750 then
    setPORTB s 0xF
  else if s.count < 6000 then
    setPORTB s 0x0
  else
    let s := { s with spin := 0 }
    let s := { s with running := 0 }
    let s := { s with finished := 1 }
    { s with duty_cycle := 100 }

/-- The first statement of the body of the `while(1)` loop of `main`
(`main.c` lines 246 to 262): the phase functions are called while running,
each flag tested on the state the previous call left; otherwise the LEDs are
switched off. -/
def main_phases (s : State) : State :=
  if s.running ≠ 0 then
    let s := if s.wash ≠ 0 then washing s else s
    let s := if s.rinse ≠ 0 then rinsing s else s
    if s.spin ≠ 0 then spinning s else s
  else
    setPORTB s 0x0

/-- One pass through the body of the `while(1)` loop of `main`
(`main.c` lines 245 to 268), with no interrupt arriving during the pass. -/
def main_loop (s : State) : State :=
  let s := main_phases s
  if (c_ne s.operational_mode s.initial_operational_mode
        ||| c_ne s.water_level s.initial_water_level) ≠ 0 then
    reset s
  else s

/-- The handler `ISR(INT0_vect)` of the START button. -/
def INT0_vect (s : State) : State := start s

/-- The handler `ISR(INT1_vect)` of the RESET button. -/
def INT1_vect (s : State) : State := reset s

/-- The first half of `ISR(TIMER1_COMPA_vect)` (`main.c` lines 297 to
308): `count` is incremented while running (it is a `uint32_t`), the two
inputs are sampled from `pind`, the value read from `PIND`, and the digit
select `ssd_cc` is toggled. -/
def tick_sample (pind : Nat) (s : State) : State :=
  let s := if s.running ≠ 0 then { s with count := (s.count + 1) % 2 ^ 32 } else s
  let s := { s with water_level := pind &&& 0x03 }
  let s := { s with operational_mode := pind &&& 0x10 }
  { s with ssd_cc := s.ssd_cc ^^^ 1 }

/-- The second half of `ISR(TIMER1_COMPA_vect)` (`main.c` lines 313 to
349): the seven segment display.  `PORTA` is an 8 bit register, so the
complement `~(1 << 7)` acts on it as `0xFF ^ (1 << 7)`. -/
def tick_display (s : State) : State :=
  if s.ssd_cc ≠ 0 then
    let s :=
      if s.operational_mode ≠ 0 then { s with PORTA := ssd_values.getD 5 0 }
      else { s with PORTA := ssd_values.getD 4 0 }
    let s := if s.finished ≠ 0 then { s with PORTA := ssd_values.getD 6 0 } else s
    { s with PORTA := s.PORTA ||| (1 <<< 7) }
  else
    let s :=
      if s.finished ≠ 0 then { s with PORTA := ssd_values.getD 6 0 }
      else { s with PORTA := ssd_values.getD s.water_level 0 }
    { s with PORTA := s.PORTA &&& (0xFF ^^^ (1 <<< 7)) }

/-- The handler `ISR(TIMER1_COMPA_vect)` (`main.c` lines 293 to 350), run
1000 times per second. -/
def TIMER1_COMPA_vect (pind : Nat) (s : State) : State :=
  tick_display (tick_sample pind s)

/-! ## Reference mappings of the specification -/

/-- The reference mapping of the water level to its display code:
Low (0) is 8, High (1) is 1, Medium (2) is 64, Error (3) is 121. -/
def spec_water_code : Nat → Nat
  | 0 => 8
  | 1 => 1
  | 2 => 64
  | 3 => 121
  | _ => 0

/-- The reference left digit: "0" (63) when finished, else "E" (121) in
Extended mode, else "N" (84). -/
def spec_left_digit (mode finished : Nat) : Nat :=
  if finished ≠ 0 then 63 else if mode ≠ 0 then 121 else 84

/-- The reference right digit: "0" (63) when finished, else the code of the
water level. -/
def spec_right_digit (water finished : Nat) : Nat :=
  if finished ≠ 0 then 63 else spec_water_code water

/-! ## Concrete states used as examples -/

/-- Normal mode, first rinse, 6000 ms elapsed. -/
def ex_rinse_done : State :=
  { init with running := 1, rinse := 1, duty_cycle := 50, count := 6000 }

/-- Extended mode (mode bit 16 set, live and snapshot), spinning, 6000 ms
elapsed, two rinses done. -/
def ex_spin_done : State :=
  { init with
    operational_mode := 16
    initial_operational_mode := 16
    running := 1
    spin := 1
    rinse_cycles_completed := 2
    duty_cycle := 10
    count := 6000 }

/-- Washing, 1500 ms elapsed. -/
def ex_wash_1500 : State :=
  { init with running := 1, wash := 1, duty_cycle := 90, count := 1500 }

/-- A spin in progress with `c` ms elapsed. -/
def spin_at (c : Nat) : State :=
  { init with running := 1, spin := 1, duty_cycle := 10, count := c }

/-- A rinse in progress with `c` ms elapsed. -/
def rinse_at (c : Nat) : State :=
  { init with running := 1, rinse := 1, duty_cycle := 50, count := c }

/-- The value of `PIND` with switch S2 on (Extended mode, bit 4) and the
water level switches at High (1). -/
def pind_extended_high : Nat := 0x11

/-! ## Auxiliary definitions for the proofs -/

/-- The state with the LED register `PORTB`, which the phase functions
rewrite on every call, blanked out. -/
def ctl (s : State) : State := { s with PORTB := 0 }

/-- The guarded call `if(wash) washing();` of the main loop. -/
def wash_step (s : State) : State := if s.wash ≠ 0 then washing s else s

/-- The guarded call `if(rinse) rinsing();` of the main loop. -/
def rinse_step (s : State) : State := if s.rinse ≠ 0 then rinsing s else s

/-- The guarded call `if(spin) spinning();` of the main loop. -/
def spin_step (s : State) : State := if s.spin ≠ 0 then spinning s else s

/-- The events of the system: the two buttons, the 1 kHz timer (with the
value it reads from `PIND`) and a pass of the main loop. -/
inductive Event where
  | start : Event
  | reset : Event
  | tick (pind : Nat) : Event
  | loop : Event
  deriving DecidableEq, Repr

/-- The handler of an event. -/
def step : Event → State → State
  | Event.start, s => INT0_vect s
  | Event.reset, s => INT1_vect s
  | Event.tick pind, s => TIMER1_COMPA_vect pind s
  | Event.loop, s => main_loop s

/-- The state after a sequence of events, the first of the list first. -/
def run : List Event → State → State
  | [], s => s
  | e :: es, s => run es (step e s)

/-- The four shapes of the phase flags, with what each allows for
`finished`, `duty_cycle` and `rinse_cycles_completed`: not running,
washing, rinsing, spinning. -/
def InvF (running wash rinse spin finished duty cycles : Nat) : Prop :=
  (running = 0 ∧ wash = 0 ∧ rinse = 0 ∧ spin = 0 ∧ (finished = 0 ∨ finished = 1) ∧
    duty = 100 ∧ cycles ≤ 2) ∨
  (running = 1 ∧ wash = 1 ∧ rinse = 0 ∧ spin = 0 ∧ finished = 0 ∧
    (duty = 90 ∨ duty = 100) ∧ cycles = 0) ∨
  (running = 1 ∧ wash = 0 ∧ rinse = 1 ∧ spin = 0 ∧ finished = 0 ∧
    duty = 50 ∧ cycles ≤ 1) ∨
  (running = 1 ∧ wash = 0 ∧ rinse = 0 ∧ spin = 1 ∧ finished = 0 ∧
    duty = 10 ∧ cycles ≤ 2)

/-- The invariant of the reachable states. -/
def Inv (s : State) : Prop :=
  InvF s.running s.wash s.rinse s.spin s.finished s.duty_cycle s.rinse_cycles_completed

/-- A finished cycle (not running, `finished = 1`) whose mode switch has
since been moved to Extended: the live mode is 16, the snapshot still 0. -/
def ex_finished_mode_changed : State :=
  { init with operational_mode := 16, finished := 1, count := 6000 }

/-- As `ex_rinse_done`, with the four LEDs still lit. -/
def ex_rinse_done_leds_on : State :=
  { ex_rinse_done with PORTB := 0xF }

/-- As `ex_spin_done`, with the four LEDs still lit. -/
def ex_spin_done_leds_on : State :=
  { ex_spin_done with PORTB := 0xF }

/-- As `ex_rinse_done`, with only the live mode moved to Extended (16); the
snapshot `initial_operational_mode` is still 0. -/
def ex_rinse_done_live_extended : State :=
  { ex_rinse_done with operational_mode := 16 }

/-- One millisecond of operation with the inputs held at `pind`: the timer
tick followed by a pass of the main loop. -/
def cycle_step (pind : Nat) (s : State) : State :=
  main_loop (TIMER1_COMPA_vect pind s)

/-- The state after `n` repetitions of `cycle_step`. -/
def iter (pind : Nat) : Nat → State → State
  | 0, t => t
  | n + 1, t => cycle_step pind (iter pind n t)

/-- The state `n` milliseconds after `start` was pressed in state `s`, with
the inputs held at `pind`. -/
def cycle (pind : Nat) (s : State) (n : Nat) : State :=
  iter pind n (start s)

/-- The flags `running`, `wash`, `rinse`, `spin` and `finished` of a state,
in this order. -/
def flags (t : State) : Nat × Nat × Nat × Nat × Nat :=
  (t.running, t.wash, t.rinse, t.spin, t.finished)

/-- A running, unfinished state whose inputs and snapshots are those sampled
from `pind`, with the given phase flags, count and number of completed
rinses. -/
def St (pind w ri sp k rc : Nat) (t : State) : Prop :=
  t.operational_mode = pind &&& 0x10 ∧ t.initial_operational_mode = pind &&& 0x10 ∧
  t.water_level = pind &&& 0x03 ∧ t.initial_water_level = pind &&& 0x03 ∧
  t.running = 1 ∧ t.wash = w ∧ t.rinse = ri ∧ t.rinse_cycles_completed = rc ∧
  t.spin = sp ∧ t.finished = 0 ∧ t.count = k

/-- A run that reaches the end of the first rinse in Extended mode: the mode
switch is sampled as Extended (16), `start` is pressed, 6000 ticks pass, the
main loop runs once (the wash completes), and 6000 more ticks pass. -/
def ex_first_rinse_due : List Event :=
  [Event.tick 16, Event.start]
    ++ (List.replicate 6000 (Event.tick 16) ++ [Event.loop]
      ++ List.replicate 6000 (Event.tick 16))

/-! ## Commands: `start` and `reset` -/

/-- C1: `start` leaves the state as it is when the water level is Error (3)
or the machine is already running; otherwise it sets `running = 1`,
`wash = 1`, `count = 0`, `finished = 0`, `rinse_cycles_completed = 0`,
stores the live operational mode and water level as the initial ones, and
changes no other field. -/
theorem start_contract (s : State) :
    ((s.water_level = 3 ∨ s.running ≠ 0) → start s = s) ∧
    (¬ (s.water_level = 3 ∨ s.running ≠ 0) →
      (start s).running = 1 ∧ (start s).wash = 1 ∧ (start s).count = 0 ∧
      (start s).finished = 0 ∧ (start s).rinse_cycles_completed = 0 ∧
      (start s).initial_operational_mode = s.operational_mode ∧
      (start s).initial_water_level = s.water_level ∧
      (start s).operational_mode = s.operational_mode ∧
      (start s).water_level = s.water_level ∧
      (start s).rinse = s.rinse ∧ (start s).spin = s.spin ∧
      (start s).duty_cycle = s.duty_cycle ∧ (start s).ssd_cc = s.ssd_cc ∧
      (start s).PORTA = s.PORTA ∧ (start s).PORTB = s.PORTB) := by
  constructor
  · intro h
    unfold start
    rcases h with h | h
    · simp [h]
    · simp [h]
  · intro h
    have hw : s.water_level ≠ 3 := fun hw => h (Or.inl hw)
    have hr : s.running = 0 := by
      by_contra hr
      exact h (Or.inr hr)
    simp [start, hw, hr]

/-- C1 at concrete inputs: from the initial state `start` begins a wash,
and with the water level at Error it changes nothing. -/
theorem start_contract_witness :
    start { init with water_level := 3 } = { init with water_level := 3 } ∧
    (start init).running = 1 ∧ (start init).wash = 1 ∧ (start init).count = 0 :=
  ⟨(start_contract { init with water_level := 3 }).1 (Or.inl rfl),
   ((start_contract init).2 (by decide)).1,
   ((start_contract init).2 (by decide)).2.1,
   ((start_contract init).2 (by decide)).2.2.1⟩

/-- The fields `reset` assigns. -/
theorem reset_fields (s : State) :
    (reset s).running = 0 ∧ (reset s).wash = 0 ∧ (reset s).rinse = 0 ∧
    (reset s).spin = 0 ∧ (reset s).rinse_cycles_completed = 0 ∧
    (reset s).finished = 0 ∧ (reset s).duty_cycle = 100 := by
  simp [reset]

/-- C2: from every state, reachable or not, `reset` yields `running = 0`,
`wash = rinse = spin = 0`, `rinse_cycles_completed = 0`, `finished = 0` and
`duty_cycle = 100`. -/
theorem reset_yields_idle (s : State) :
    (reset s).running = 0 ∧ (reset s).wash = 0 ∧ (reset s).rinse = 0 ∧
    (reset s).spin = 0 ∧ (reset s).rinse_cycles_completed = 0 ∧
    (reset s).finished = 0 ∧ (reset s).duty_cycle = 100 :=
  reset_fields s

/-- C3: `reset` is idempotent, on the whole state. -/
theorem reset_idempotent (s : State) : reset (reset s) = reset s := by
  simp [reset]

/-! ## Frame lemmas: the phase functions never write the sampled inputs or
their snapshots -/

theorem washing_inputs (s : State) :
    (washing s).operational_mode = s.operational_mode ∧
    (washing s).initial_operational_mode = s.initial_operational_mode ∧
    (washing s).water_level = s.water_level ∧
    (washing s).initial_water_level = s.initial_water_level := by
  unfold washing
  simp only [setPORTB, apply_ite State.operational_mode,
    apply_ite State.initial_operational_mode, apply_ite State.water_level,
    apply_ite State.initial_water_level, ite_self, and_self]

theorem rinsing_complete_inputs (s : State) :
    (rinsing_complete s).operational_mode = s.operational_mode ∧
    (rinsing_complete s).initial_operational_mode = s.initial_operational_mode ∧
    (rinsing_complete s).water_level = s.water_level ∧
    (rinsing_complete s).initial_water_level = s.initial_water_level := by
  unfold rinsing_complete
  simp only [apply_ite State.operational_mode,
    apply_ite State.initial_operational_mode, apply_ite State.water_level,
    apply_ite State.initial_water_level, ite_self, and_self]

theorem rinsing_inputs (s : State) :
    (rinsing s).operational_mode = s.operational_mode ∧
    (rinsing s).initial_operational_mode = s.initial_operational_mode ∧
    (rinsing s).water_level = s.water_level ∧
    (rinsing s).initial_water_level = s.initial_water_level := by
  unfold rinsing
  simp only [setPORTB, apply_ite State.operational_mode,
    apply_ite State.initial_operational_mode, apply_ite State.water_level,
    apply_ite State.initial_water_level, rinsing_complete_inputs, ite_self, and_self]

theorem spinning_inputs (s : State) :
    (spinning s).operational_mode = s.operational_mode ∧
    (spinning s).initial_operational_mode = s.initial_operational_mode ∧
    (spinning s).water_level = s.water_level ∧
    (spinning s).initial_water_level = s.initial_water_level := by
  unfold spinning
  simp only [setPORTB, apply_ite State.operational_mode,
    apply_ite State.initial_operational_mode, apply_ite State.water_level,
    apply_ite State.initial_water_level, ite_self, and_self]

/-- The divergence test of `main`: the bitwise or of the two comparisons is
nonzero exactly when one of them holds. -/
theorem c_ne_or_ne_zero (a b c d : Nat) :
    (c_ne a b ||| c_ne c d) ≠ 0 ↔ (a ≠ b ∨ c ≠ d) := by
  unfold c_ne
  by_cases h1 : a = b <;> by_cases h2 : c = d <;> simp [h1, h2]

theorem main_phases_inputs (s : State) :
    (main_phases s).operational_mode = s.operational_mode ∧
    (main_phases s).initial_operational_mode = s.initial_operational_mode ∧
    (main_phases s).water_level = s.water_level ∧
    (main_phases s).initial_water_level = s.initial_water_level := by
  unfold main_phases
  simp only [setPORTB, apply_ite State.operational_mode,
    apply_ite State.initial_operational_mode, apply_ite State.water_level,
    apply_ite State.initial_water_level, washing_inputs, rinsing_inputs, spinning_inputs,
    ite_self, and_self]

/-- Whenever the live mode or water level differs from the snapshot, a pass
of the main loop ends in `reset`, whatever the phase functions did before. -/
theorem main_loop_diverged (s : State)
    (hd : s.operational_mode ≠ s.initial_operational_mode ∨
      s.water_level ≠ s.initial_water_level) :
    main_loop s = reset (main_phases s) := by
  obtain ⟨h1, h2, h3, h4⟩ := main_phases_inputs s
  have e : (c_ne (main_phases s).operational_mode (main_phases s).initial_operational_mode
      ||| c_ne (main_phases s).water_level (main_phases s).initial_water_level) ≠ 0 := by
    rw [c_ne_or_ne_zero, h1, h2, h3, h4]
    exact hd
  unfold main_loop
  exact if_pos e

/-! ## The main loop and the phase transitions -/

/-- C4: in a running state whose live operational mode or water level
differs from the snapshot taken by `start`, one pass of the main loop body
ends with `running = 0`, `wash = rinse = spin = 0`,
`rinse_cycles_completed = 0`, `finished = 0` and `duty_cycle = 100`,
whatever the phase and the count. -/
theorem main_loop_divergence_resets (s : State) (hrun : s.running = 1)
    (hd : s.operational_mode ≠ s.initial_operational_mode ∨
      s.water_level ≠ s.initial_water_level) :
    (main_loop s).running = 0 ∧ (main_loop s).wash = 0 ∧ (main_loop s).rinse = 0 ∧
    (main_loop s).spin = 0 ∧ (main_loop s).rinse_cycles_completed = 0 ∧
    (main_loop s).finished = 0 ∧ (main_loop s).duty_cycle = 100 := by
  rw [main_loop_diverged s hd]
  exact reset_fields (main_phases s)

/-- C4 at a concrete input: a wash started in Normal mode whose mode switch
is then moved to Extended (16) is reset by the next pass. -/
theorem main_loop_divergence_resets_witness :
    (main_loop { start init with operational_mode := 16 }).running = 0 ∧
    (main_loop { start init with operational_mode := 16 }).wash = 0 :=
  ⟨(main_loop_divergence_resets { start init with operational_mode := 16 } rfl
      (Or.inl (by decide))).1,
   (main_loop_divergence_resets { start init with operational_mode := 16 } rfl
      (Or.inl (by decide))).2.1⟩

/-- Once 6000 ms have elapsed `washing` takes its last branch. -/
theorem washing_of_ge (s : State) (h : 6000 ≤ s.count) :
    washing s =
      { s with duty_cycle := 90, PORTB := 0x00, wash := 0, rinse := 1, count := 0 } := by
  have e : ∀ k, k ≤ 6000 → ¬ (s.count < k) := fun k hk => by omega
  unfold washing
  dsimp only [setPORTB]
  rw [if_neg (e 350 (by decide)),
    if_neg (e 700 (by decide)),
    if_neg (e 1050 (by decide)),
    if_neg (e 1400 (by decide)),
    if_neg (e 1500 (by decide)),
    if_neg (e 1850 (by decide)),
    if_neg (e 2200 (by decide)),
    if_neg (e 2550 (by decide)),
    if_neg (e 2900 (by decide)),
    if_neg (e 3000 (by decide)),
    if_neg (e 6000 (by decide))]

/-- Once 6000 ms have elapsed `rinsing` takes its last branch. -/
theorem rinsing_of_ge (s : State) (h : 6000 ≤ s.count) :
    rinsing s = rinsing_complete { s with duty_cycle := 50 } := by
  have e : ∀ k, k ≤ 6000 → ¬ (s.count < k) := fun k hk => by omega
  unfold rinsing
  dsimp only [setPORTB]
  rw [if_neg (e 350 (by decide)),
    if_neg (e 700 (by decide)),
    if_neg (e 1050 (by decide)),
    if_neg (e 1400 (by decide)),
    if_neg (e 1500 (by decide)),
    if_neg (e 1850 (by decide)),
    if_neg (e 2200 (by decide)),
    if_neg (e 2550 (by decide)),
    if_neg (e 2900 (by decide)),
    if_neg (e 3000 (by decide)),
    if_neg (e 3500 (by decide)),
    if_neg (e 4000 (by decide)),
    if_neg (e 4500 (by decide)),
    if_neg (e 5000 (by decide)),
    if_neg (e 5500 (by decide)),
    if_neg (e 6000 (by decide))]

/-- Once 6000 ms have elapsed `spinning` takes its last branch. -/
theorem spinning_of_ge (s : State) (h : 6000 ≤ s.count) :
    spinning s =
      { s with duty_cycle := 100, spin := 0, running := 0, finished := 1 } := by
  have e : ∀ k, k ≤ 6000 → ¬ (s.count < k) := fun k hk => by omega
  unfold spinning
  dsimp only [setPORTB]
  rw [if_neg (e 375 (by decide)),
    if_neg (e 750 (by decide)),
    if_neg (e 1125 (by decide)),
    if_neg (e 1350 (by decide)),
    if_neg (e 1500 (by decide)),
    if_neg (e 1875 (by decide)),
    if_neg (e 2250 (by decide)),
    if_neg (e 2625 (by decide)),
    if_neg (e 2850 (by decide)),
    if_neg (e 3000 (by decide)),
    if_neg (e 3250 (by decide)),
    if_neg (e 3500 (by decide)),
    if_neg (e 3750 (by decide)),
    if_neg (e 4000 (by decide)),
    if_neg (e 4250 (by decide)),
    if_neg (e 4500 (by decide)),
    if_neg (e 4750 (by decide)),
    if_neg (e 5000 (by decide)),
    if_neg (e 5250 (by decide)),
    if_neg (e 5500 (by decide)),
    if_neg (e 5750 (by decide)),
    if_neg (e 6000 (by decide))]

/-- C5: in Normal mode (`operational_mode = 0`), when the first rinse has
run for 6000 ms or more (`rinse = 1`, `rinse_cycles_completed = 0`,
`count >= 6000`), `rinsing` yields `rinse = 0`, `spin = 1`, `count = 0` and
`rinse_cycles_completed = 1`. -/
theorem rinsing_normal_completes (s : State) (hmode : s.operational_mode = 0)
    (hrinse : s.rinse = 1) (hcycles : s.rinse_cycles_completed = 0)
    (hcount : 6000 ≤ s.count) :
    (rinsing s).rinse = 0 ∧ (rinsing s).spin = 1 ∧ (rinsing s).count = 0 ∧
    (rinsing s).rinse_cycles_completed = 1 := by
  rw [rinsing_of_ge s hcount]
  simp [rinsing_complete, hmode, hcycles]

/-- C5 at a concrete input: Normal mode, rinsing, no rinse completed yet,
count 6000. -/
theorem rinsing_normal_completes_witness :
    (rinsing ex_rinse_done).rinse = 0 ∧ (rinsing ex_rinse_done).spin = 1 ∧
    (rinsing ex_rinse_done).count = 0 ∧
    (rinsing ex_rinse_done).rinse_cycles_completed = 1 :=
  rinsing_normal_completes ex_rinse_done rfl rfl rfl (by decide)

/-- C7: when the spin has run for 6000 ms or more (`spin = 1`,
`count >= 6000`), `spinning` yields `finished = 1`, `running = 0`,
`spin = 0` and `duty_cycle = 100`, whatever the operational mode. -/
theorem spinning_completes (s : State) (hspin : s.spin = 1) (hcount : 6000 ≤ s.count) :
    (spinning s).finished = 1 ∧ (spinning s).running = 0 ∧ (spinning s).spin = 0 ∧
    (spinning s).duty_cycle = 100 := by
  rw [spinning_of_ge s hcount]
  exact ⟨rfl, rfl, rfl, rfl⟩

/-- C7 at a concrete input: Extended mode (16), spinning, count 6000. -/
theorem spinning_completes_witness :
    (spinning ex_spin_done).finished = 1 ∧ (spinning ex_spin_done).running = 0 ∧
    (spinning ex_spin_done).spin = 0 ∧ (spinning ex_spin_done).duty_cycle = 100 :=
  spinning_completes ex_spin_done rfl (by decide)

/-- The two completions of a rinse in Extended mode, from any state: the
first restarts the rinse and does not write `spin`, the second moves on to
the spin. -/
theorem rinsing_extended_completes (s : State) (hmode : s.operational_mode ≠ 0)
    (hrinse : s.rinse = 1) (hcount : 6000 ≤ s.count) :
    (s.rinse_cycles_completed = 0 →
      (rinsing s).rinse = 1 ∧ (rinsing s).spin = s.spin ∧ (rinsing s).count = 0 ∧
      (rinsing s).rinse_cycles_completed = 1) ∧
    (s.rinse_cycles_completed = 1 →
      (rinsing s).rinse = 0 ∧ (rinsing s).spin = 1 ∧ (rinsing s).count = 0 ∧
      (rinsing s).rinse_cycles_completed = 2) := by
  rw [rinsing_of_ge s hcount]
  constructor
  · intro hc
    simp [rinsing_complete, hmode, hc, hrinse]
  · intro hc
    simp [rinsing_complete, hmode, hc]

/-! ## LED patterns -/

/-- C8, as stated, fails: at `count = 1500`, inside the range 1500 to 1849,
`washing` lights L0 (`PORTB = 1`) and not "all LEDs off". -/
theorem washing_blank_counterexample :
    ex_wash_1500.wash = 1 ∧ 1500 ≤ ex_wash_1500.count ∧ ex_wash_1500.count ≤ 1849 ∧
    (washing ex_wash_1500).PORTB = 1 ∧ (washing ex_wash_1500).PORTB ≠ 0 := by
  decide

/-- C8, amended: in the Washing phase `washing` writes `PORTB = 1` (exactly
L0) at `count = 0`, `PORTB = 2` (exactly L1) at `count = 350`, `PORTB = 0`
(all LEDs off) for every count from 1400 to 1499 inclusive, `PORTB = 1`
(L0 again, the second sweep) for every count from 1500 to 1849 inclusive,
and at `count = 6000` it sets `wash = 0`, `rinse = 1` and `count = 0`. -/
theorem washing_pattern (s : State) (hwash : s.wash = 1) :
    (s.count = 0 → (washing s).PORTB = 1) ∧
    (s.count = 350 → (washing s).PORTB = 2) ∧
    (1400 ≤ s.count ∧ s.count ≤ 1499 → (washing s).PORTB = 0) ∧
    (1500 ≤ s.count ∧ s.count ≤ 1849 → (washing s).PORTB = 1) ∧
    (s.count = 6000 →
      (washing s).wash = 0 ∧ (washing s).rinse = 1 ∧ (washing s).count = 0) := by
  refine ⟨?_, ?_, ?_, ?_, ?_⟩
  · intro h
    unfold washing
    dsimp only [setPORTB]
    rw [if_pos (show s.count < 350 by omega)]
    rfl
  · intro h
    unfold washing
    dsimp only [setPORTB]
    rw [if_neg (show ¬ s.count < 350 by omega),
      if_pos (show s.count < 700 by omega)]
    rfl
  · intro h
    unfold washing
    dsimp only [setPORTB]
    rw [if_neg (show ¬ s.count < 350 by omega),
      if_neg (show ¬ s.count < 700 by omega),
      if_neg (show ¬ s.count < 1050 by omega),
      if_neg (show ¬ s.count < 1400 by omega),
      if_pos (show s.count < 1500 by omega)]
  · intro h
    unfold washing
    dsimp only [setPORTB]
    rw [if_neg (show ¬ s.count < 350 by omega),
      if_neg (show ¬ s.count < 700 by omega),
      if_neg (show ¬ s.count < 1050 by omega),
      if_neg (show ¬ s.count < 1400 by omega),
      if_neg (show ¬ s.count < 1500 by omega),
      if_pos (show s.count < 1850 by omega)]
    rfl
  · intro h
    rw [washing_of_ge s (by omega)]
    exact ⟨rfl, rfl, rfl⟩

/-- C8 (amended) at a concrete input: 1500 ms into the wash L0 is lit. -/
theorem washing_pattern_witness : (washing ex_wash_1500).PORTB = 1 :=
  (washing_pattern ex_wash_1500 rfl).2.2.2.1 (by decide)

/-- First pass of the spin: a single LED moving from L3 down to L0, a new
window every 375 ms, until 1350 ms. -/
theorem spinning_first_pass (s : State) (h : s.count < 1350) :
    (spinning s).PORTB = 8 >>> (s.count / 375) := by
  have hq : s.count / 375 = 0 ∨ s.count / 375 = 1 ∨ s.count / 375 = 2 ∨
      s.count / 375 = 3 := by
    omega
  rcases hq with hq | hq | hq | hq
  · rw [hq]
    unfold spinning
    dsimp only [setPORTB]
    rw [if_pos (show s.count < 375 by omega)]
    all_goals rfl
  · rw [hq]
    unfold spinning
    dsimp only [setPORTB]
    rw [if_neg (show ¬ s.count < 375 by omega),
      if_pos (show s.count < 750 by omega)]
    all_goals rfl
  · rw [hq]
    unfold spinning
    dsimp only [setPORTB]
    rw [if_neg (show ¬ s.count < 375 by omega),
      if_neg (show ¬ s.count < 750 by omega),
      if_pos (show s.count < 1125 by omega)]
    all_goals rfl
  · rw [hq]
    unfold spinning
    dsimp only [setPORTB]
    rw [if_neg (show ¬ s.count < 375 by omega),
      if_neg (show ¬ s.count < 750 by omega),
      if_neg (show ¬ s.count < 1125 by omega),
      if_pos (show s.count < 1350 by omega)]
    all_goals rfl

/-- Second pass of the spin: a single LED moving from L0 up to L3, a new
window every 375 ms from 1500 ms, until 2850 ms. -/
theorem spinning_second_pass (s : State) (h1 : 1500 ≤ s.count) (h : s.count < 2850) :
    (spinning s).PORTB = 1 <<< ((s.count - 1500) / 375) := by
  have hq : (s.count - 1500) / 375 = 0 ∨ (s.count - 1500) / 375 = 1 ∨
      (s.count - 1500) / 375 = 2 ∨ (s.count - 1500) / 375 = 3 := by
    omega
  rcases hq with hq | hq | hq | hq
  · rw [hq]
    unfold spinning
    dsimp only [setPORTB]
    rw [if_neg (show ¬ s.count < 375 by omega),
      if_neg (show ¬ s.count < 750 by omega),
      if_neg (show ¬ s.count < 1125 by omega),
      if_neg (show ¬ s.count < 1350 by omega),
      if_neg (show ¬ s.count < 1500 by omega),
      if_pos (show s.count < 1875 by omega)]
  · rw [hq]
    unfold spinning
    dsimp only [setPORTB]
    rw [if_neg (show ¬ s.count < 375 by omega),
      if_neg (show ¬ s.count < 750 by omega),
      if_neg (show ¬ s.count < 1125 by omega),
      if_neg (show ¬ s.count < 1350 by omega),
      if_neg (show ¬ s.count < 1500 by omega),
      if_neg (show ¬ s.count < 1875 by omega),
      if_pos (show s.count < 2250 by omega)]
  · rw [hq]
    unfold spinning
    dsimp only [setPORTB]
    rw [if_neg (show ¬ s.count < 375 by omega),
      if_neg (show ¬ s.count < 750 by omega),
      if_neg (show ¬ s.count < 1125 by omega),
      if_neg (show ¬ s.count < 1350 by omega),
      if_neg (show ¬ s.count < 1500 by omega),
      if_neg (show ¬ s.count < 1875 by omega),
      if_neg (show ¬ s.count < 2250 by omega),
      if_pos (show s.count < 2625 by omega)]
  · rw [hq]
    unfold spinning
    dsimp only [setPORTB]
    rw [if_neg (show ¬ s.count < 375 by omega),
      if_neg (show ¬ s.count < 750 by omega),
      if_neg (show ¬ s.count < 1125 by omega),
      if_neg (show ¬ s.count < 1350 by omega),
      if_neg (show ¬ s.count < 1500 by omega),
      if_neg (show ¬ s.count < 1875 by omega),
      if_neg (show ¬ s.count < 2250 by omega),
      if_neg (show ¬ s.count < 2625 by omega),
      if_pos (show s.count < 2850 by omega)]

theorem spinning_first_blank (s : State) (h1 : 1350 ≤ s.count) (h : s.count < 1500) :
    (spinning s).PORTB = 0 := by
  unfold spinning
  dsimp only [setPORTB]
  rw [if_neg (show ¬ s.count < 375 by omega),
    if_neg (show ¬ s.count < 750 by omega),
    if_neg (show ¬ s.count < 1125 by omega),
    if_neg (show ¬ s.count < 1350 by omega),
    if_pos (show s.count < 1500 by omega)]

theorem spinning_second_blank (s : State) (h1 : 2850 ≤ s.count) (h : s.count < 3000) :
    (spinning s).PORTB = 0 := by
  unfold spinning
  dsimp only [setPORTB]
  rw [if_neg (show ¬ s.count < 375 by omega),
    if_neg (show ¬ s.count < 750 by omega),
    if_neg (show ¬ s.count < 1125 by omega),
    if_neg (show ¬ s.count < 1350 by omega),
    if_neg (show ¬ s.count < 1500 by omega),
    if_neg (show ¬ s.count < 1875 by omega),
    if_neg (show ¬ s.count < 2250 by omega),
    if_neg (show ¬ s.count < 2625 by omega),
    if_neg (show ¬ s.count < 2850 by omega),
    if_pos (show s.count < 3000 by omega)]

/-- First pass of the rinse: a single LED moving from L3 down to L0, a new
window every 350 ms, until 1400 ms. -/
theorem rinsing_first_pass (s : State) (h : s.count < 1400) :
    (rinsing s).PORTB = 8 >>> (s.count / 350) := by
  have hq : s.count / 350 = 0 ∨ s.count / 350 = 1 ∨ s.count / 350 = 2 ∨
      s.count / 350 = 3 := by
    omega
  rcases hq with hq | hq | hq | hq
  · rw [hq]
    unfold rinsing
    dsimp only [setPORTB]
    rw [if_pos (show s.count < 350 by omega)]
    all_goals rfl
  · rw [hq]
    unfold rinsing
    dsimp only [setPORTB]
    rw [if_neg (show ¬ s.count < 350 by omega),
      if_pos (show s.count < 700 by omega)]
    all_goals rfl
  · rw [hq]
    unfold rinsing
    dsimp only [setPORTB]
    rw [if_neg (show ¬ s.count < 350 by omega),
      if_neg (show ¬ s.count < 700 by omega),
      if_pos (show s.count < 1050 by omega)]
    all_goals rfl
  · rw [hq]
    unfold rinsing
    dsimp only [setPORTB]
    rw [if_neg (show ¬ s.count < 350 by omega),
      if_neg (show ¬ s.count < 700 by omega),
      if_neg (show ¬ s.count < 1050 by omega),
      if_pos (show s.count < 1400 by omega)]
    all_goals rfl

/-- Second pass of the rinse: again from L3 down to L0, a new window every
350 ms from 1500 ms, until 2900 ms. -/
theorem rinsing_second_pass (s : State) (h1 : 1500 ≤ s.count) (h : s.count < 2900) :
    (rinsing s).PORTB = 8 >>> ((s.count - 1500) / 350) := by
  have hq : (s.count - 1500) / 350 = 0 ∨ (s.count - 1500) / 350 = 1 ∨
      (s.count - 1500) / 350 = 2 ∨ (s.count - 1500) / 350 = 3 := by
    omega
  rcases hq with hq | hq | hq | hq
  · rw [hq]
    unfold rinsing
    dsimp only [setPORTB]
    rw [if_neg (show ¬ s.count < 350 by omega),
      if_neg (show ¬ s.count < 700 by omega),
      if_neg (show ¬ s.count < 1050 by omega),
      if_neg (show ¬ s.count < 1400 by omega),
      if_neg (show ¬ s.count < 1500 by omega),
      if_pos (show s.count < 1850 by omega)]
    all_goals rfl
  · rw [hq]
    unfold rinsing
    dsimp only [setPORTB]
    rw [if_neg (show ¬ s.count < 350 by omega),
      if_neg (show ¬ s.count < 700 by omega),
      if_neg (show ¬ s.count < 1050 by omega),
      if_neg (show ¬ s.count < 1400 by omega),
      if_neg (show ¬ s.count < 1500 by omega),
      if_neg (show ¬ s.count < 1850 by omega),
      if_pos (show s.count < 2200 by omega)]
    all_goals rfl
  · rw [hq]
    unfold rinsing
    dsimp only [setPORTB]
    rw [if_neg (show ¬ s.count < 350 by omega),
      if_neg (show ¬ s.count < 700 by omega),
      if_neg (show ¬ s.count < 1050 by omega),
      if_neg (show ¬ s.count < 1400 by omega),
      if_neg (show ¬ s.count < 1500 by omega),
      if_neg (show ¬ s.count < 1850 by omega),
      if_neg (show ¬ s.count < 2200 by omega),
      if_pos (show s.count < 2550 by omega)]
    all_goals rfl
  · rw [hq]
    unfold rinsing
    dsimp only [setPORTB]
    rw [if_neg (show ¬ s.count < 350 by omega),
      if_neg (show ¬ s.count < 700 by omega),
      if_neg (show ¬ s.count < 1050 by omega),
      if_neg (show ¬ s.count < 1400 by omega),
      if_neg (show ¬ s.count < 1500 by omega),
      if_neg (show ¬ s.count < 1850 by omega),
      if_neg (show ¬ s.count < 2200 by omega),
      if_neg (show ¬ s.count < 2550 by omega),
      if_pos (show s.count < 2900 by omega)]
    all_goals rfl

/-- C9, as stated, fails.  After the first blank `rinsing` starts again at
L3 (`PORTB = 8` at count 1500) while `spinning` starts at L0 (`PORTB = 1`
at count 1500): the second pass of the spin runs in the opposite order.
And the L0 window of the first pass of the spin, which begins at count 1125
(L1 is lit at 1124), has ended at count 1350: it lasts 225 ms, not 375. -/
theorem spinning_order_counterexample :
    (rinsing (rinse_at 1499)).PORTB = 0 ∧ (rinsing (rinse_at 1500)).PORTB = 8 ∧
    (spinning (spin_at 1499)).PORTB = 0 ∧ (spinning (spin_at 1500)).PORTB = 1 ∧
    (spinning (spin_at 1500)).PORTB ≠ (rinsing (rinse_at 1500)).PORTB ∧
    (spinning (spin_at 1124)).PORTB = 2 ∧ (spinning (spin_at 1125)).PORTB = 1 ∧
    (spinning (spin_at 1349)).PORTB = 1 ∧ (spinning (spin_at 1350)).PORTB = 0 := by
  decide

/-- C9, amended: for every count below 3000 `spinning` lights one LED per
window in two passes.  The first pass has the reverse order of `rinsing`
(L3, L2, L1, L0: `rinsing` shows `8 >> (count / 350)` below 1400, `spinning`
shows `8 >> (count / 375)` below 1350, so L3, L2 and L1 last 375 ms each and
L0 lasts the 225 ms from 1125 to 1349), then blank from 1350 to 1499.  The
second pass runs forward (L0, L1, L2, L3: `1 << ((count - 1500) / 375)` from
1500 to 2849, where `rinsing` repeats `8 >> ((count - 1500) / 350)`), then
blank from 2850 to 2999. -/
theorem spinning_sweep (s : State) (h : s.count < 3000) :
    (s.count < 1350 → (spinning s).PORTB = 8 >>> (s.count / 375)) ∧
    (1350 ≤ s.count ∧ s.count < 1500 → (spinning s).PORTB = 0) ∧
    (1500 ≤ s.count ∧ s.count < 2850 →
      (spinning s).PORTB = 1 <<< ((s.count - 1500) / 375)) ∧
    (2850 ≤ s.count → (spinning s).PORTB = 0) ∧
    (s.count < 1400 → (rinsing s).PORTB = 8 >>> (s.count / 350)) ∧
    (1500 ≤ s.count ∧ s.count < 2900 →
      (rinsing s).PORTB = 8 >>> ((s.count - 1500) / 350)) :=
  ⟨spinning_first_pass s,
   fun hb => spinning_first_blank s hb.1 hb.2,
   fun hb => spinning_second_pass s hb.1 hb.2,
   fun hb => spinning_second_blank s hb h,
   rinsing_first_pass s,
   fun hb => rinsing_second_pass s hb.1 hb.2⟩

/-- C9 (amended) at a concrete input: 1500 ms into the spin L0 is lit. -/
theorem spinning_sweep_witness : (spinning (spin_at 1500)).PORTB = 1 :=
  ((spinning_sweep (spin_at 1500) (by decide)).2.2.1 (by decide)).trans (by decide)

/-! ## The seven segment display -/

theorem tick_sample_fields (pind : Nat) (s : State) :
    (tick_sample pind s).water_level = pind &&& 0x03 ∧
    (tick_sample pind s).operational_mode = pind &&& 0x10 ∧
    (tick_sample pind s).finished = s.finished ∧
    (tick_sample pind s).ssd_cc = s.ssd_cc ^^^ 1 := by
  unfold tick_sample
  simp only [apply_ite State.water_level, apply_ite State.operational_mode,
    apply_ite State.finished, apply_ite State.ssd_cc, ite_self, and_self]

theorem tick_display_fields (s : State) :
    (tick_display s).water_level = s.water_level ∧
    (tick_display s).operational_mode = s.operational_mode ∧
    (tick_display s).finished = s.finished ∧
    (tick_display s).ssd_cc = s.ssd_cc := by
  unfold tick_display
  simp only [apply_ite State.water_level, apply_ite State.operational_mode,
    apply_ite State.finished, apply_ite State.ssd_cc, ite_self, and_self]

/-- On the indices 0 to 3 the table `ssd_values` is the reference mapping of
the water level, and these codes have bit 7 clear. -/
theorem ssd_values_water (w : Nat) (h : w ≤ 3) :
    ssd_values.getD w 0 = spec_water_code w ∧
    spec_water_code w &&& (0xFF ^^^ (1 <<< 7)) = spec_water_code w ∧
    spec_water_code w &&& 0x80 = 0 := by
  interval_cases w <;> exact ⟨rfl, rfl, rfl⟩

theorem tick_display_left (s : State) (h : s.ssd_cc ≠ 0) :
    (tick_display s).PORTA = 0x80 ||| spec_left_digit s.operational_mode s.finished := by
  by_cases hf : s.finished = 0 <;> by_cases hm : s.operational_mode = 0 <;>
    simp [tick_display, spec_left_digit, h, hf, hm, ssd_values]

theorem tick_display_right (s : State) (h : s.ssd_cc = 0) (hw : s.water_level ≤ 3) :
    (tick_display s).PORTA = spec_right_digit s.water_level s.finished ∧
    (tick_display s).PORTA &&& 0x80 = 0 := by
  obtain ⟨w1, w2, w3⟩ := ssd_values_water _ hw
  by_cases hf : s.finished = 0
  · simp only [tick_display, spec_right_digit, h, hf, ne_eq, not_true_eq_false, if_false]
    rw [w1, w2]
    exact ⟨rfl, w3⟩
  · simp [tick_display, spec_right_digit, h, hf, ssd_values]
    decide

/-- C10: the display output of the tick handler is the reference mapping,
for every value read from `PIND` and every state.  When the toggled
`ssd_cc` is nonzero (in particular 1, the left digit) `PORTA` is `0x80`
together with 63 if finished, else 121 in Extended mode, else 84.  When it
is 0 (the right digit) `PORTA` has bit 7 clear and is 63 if finished, else
the code of the sampled water level (Low 8, High 1, Medium 64, Error 121).
The sampled water level, the index into `ssd_values`, is at most 3.  So
`finished = 1` gives code 63 on both digits, and `finished = 0` with
Extended mode and water level High gives 121 on the left and 1 on the
right. -/
theorem display_matches_reference (pind : Nat) (s : State) :
    ((TIMER1_COMPA_vect pind s).ssd_cc ≠ 0 →
      (TIMER1_COMPA_vect pind s).PORTA
        = 0x80 ||| spec_left_digit (TIMER1_COMPA_vect pind s).operational_mode s.finished) ∧
    ((TIMER1_COMPA_vect pind s).ssd_cc = 0 →
      (TIMER1_COMPA_vect pind s).PORTA &&& 0x80 = 0 ∧
      (TIMER1_COMPA_vect pind s).PORTA
        = spec_right_digit (TIMER1_COMPA_vect pind s).water_level s.finished) ∧
    (TIMER1_COMPA_vect pind s).water_level = pind &&& 0x03 ∧
    (TIMER1_COMPA_vect pind s).water_level ≤ 3 ∧
    (TIMER1_COMPA_vect pind s).operational_mode = pind &&& 0x10 ∧
    (TIMER1_COMPA_vect pind s).ssd_cc = s.ssd_cc ^^^ 1 ∧
    (s.finished = 1 →
      ((TIMER1_COMPA_vect pind s).ssd_cc ≠ 0 →
        (TIMER1_COMPA_vect pind s).PORTA = 0x80 ||| 63) ∧
      ((TIMER1_COMPA_vect pind s).ssd_cc = 0 → (TIMER1_COMPA_vect pind s).PORTA = 63)) ∧
    (s.finished = 0 → pind &&& 0x10 ≠ 0 → pind &&& 0x03 = 1 →
      ((TIMER1_COMPA_vect pind s).ssd_cc ≠ 0 →
        (TIMER1_COMPA_vect pind s).PORTA = 0x80 ||| 121) ∧
      ((TIMER1_COMPA_vect pind s).ssd_cc = 0 → (TIMER1_COMPA_vect pind s).PORTA = 1)) := by
  obtain ⟨d1, d2, -, d4⟩ := tick_display_fields (tick_sample pind s)
  obtain ⟨s1, s2, s3, s4⟩ := tick_sample_fields pind s
  have hw : (tick_sample pind s).water_level ≤ 3 := by
    rw [s1]
    exact Nat.and_le_right
  have left : (TIMER1_COMPA_vect pind s).ssd_cc ≠ 0 →
      (TIMER1_COMPA_vect pind s).PORTA
        = 0x80 ||| spec_left_digit (pind &&& 0x10) s.finished := by
    intro h
    unfold TIMER1_COMPA_vect at h ⊢
    rw [d4] at h
    rw [tick_display_left _ h, s2, s3]
  have right : (TIMER1_COMPA_vect pind s).ssd_cc = 0 →
      (TIMER1_COMPA_vect pind s).PORTA &&& 0x80 = 0 ∧
      (TIMER1_COMPA_vect pind s).PORTA
        = spec_right_digit (pind &&& 0x03) s.finished := by
    intro h
    unfold TIMER1_COMPA_vect at h ⊢
    rw [d4] at h
    obtain ⟨r1, r2⟩ := tick_display_right _ h hw
    rw [s1, s3] at r1
    exact ⟨r2, r1⟩
  have e1 : (TIMER1_COMPA_vect pind s).water_level = pind &&& 0x03 := d1.trans s1
  have e2 : (TIMER1_COMPA_vect pind s).operational_mode = pind &&& 0x10 := d2.trans s2
  refine ⟨?_, ?_, e1, ?_, e2, d4.trans s4, ?_, ?_⟩
  · rw [e2]
    exact left
  · rw [e1]
    exact right
  · rw [e1]
    exact Nat.and_le_right
  · intro hf
    refine ⟨fun h => ?_, fun h => ?_⟩
    · rw [left h, hf]
      rfl
    · rw [(right h).2, hf]
      rfl
  · intro hf hm hl
    refine ⟨fun h => ?_, fun h => ?_⟩
    · rw [left h, hf]
      simp [spec_left_digit, hm]
    · rw [(right h).2, hf, hl]
      rfl

/-- C10 at a concrete input: from the initial state, with the mode switch on
Extended and the water level at High, the first tick selects the left digit
and shows "E". -/
theorem display_matches_reference_witness :
    (TIMER1_COMPA_vect pind_extended_high init).PORTA = 0x80 ||| 121 :=
  ((display_matches_reference pind_extended_high init).2.2.2.2.2.2.2
    rfl (by decide) (by decide)).1 (by decide)

/-! ## The effect of a pass of the main loop -/

theorem washing_ctl_lt (s : State) (h : s.count < 6000) :
    ctl (washing s) = { ctl s with duty_cycle := 90 } := by
  unfold washing ctl
  simp only [setPORTB, State.mk.injEq, apply_ite State.operational_mode,
    apply_ite State.initial_operational_mode, apply_ite State.water_level,
    apply_ite State.initial_water_level, apply_ite State.running, apply_ite State.wash,
    apply_ite State.rinse, apply_ite State.rinse_cycles_completed, apply_ite State.spin,
    apply_ite State.finished, apply_ite State.duty_cycle, apply_ite State.count,
    apply_ite State.ssd_cc, apply_ite State.PORTA, if_pos h, ite_self, and_self]

theorem rinsing_ctl_lt (s : State) (h : s.count < 6000) :
    ctl (rinsing s) = { ctl s with duty_cycle := 50 } := by
  unfold rinsing ctl
  simp only [setPORTB, State.mk.injEq, apply_ite State.operational_mode,
    apply_ite State.initial_operational_mode, apply_ite State.water_level,
    apply_ite State.initial_water_level, apply_ite State.running, apply_ite State.wash,
    apply_ite State.rinse, apply_ite State.rinse_cycles_completed, apply_ite State.spin,
    apply_ite State.finished, apply_ite State.duty_cycle, apply_ite State.count,
    apply_ite State.ssd_cc, apply_ite State.PORTA, if_pos h, ite_self, and_self]

theorem spinning_ctl_lt (s : State) (h : s.count < 6000) :
    ctl (spinning s) = { ctl s with duty_cycle := 10 } := by
  unfold spinning ctl
  simp only [setPORTB, State.mk.injEq, apply_ite State.operational_mode,
    apply_ite State.initial_operational_mode, apply_ite State.water_level,
    apply_ite State.initial_water_level, apply_ite State.running, apply_ite State.wash,
    apply_ite State.rinse, apply_ite State.rinse_cycles_completed, apply_ite State.spin,
    apply_ite State.finished, apply_ite State.duty_cycle, apply_ite State.count,
    apply_ite State.ssd_cc, apply_ite State.PORTA, if_pos h, ite_self, and_self]

theorem main_phases_running (s : State) (hr : s.running ≠ 0) :
    main_phases s = spin_step (rinse_step (wash_step s)) := by
  unfold main_phases
  rw [if_pos hr]
  rfl

theorem main_phases_idle (s : State) (hr : s.running = 0) :
    main_phases s = setPORTB s 0 := by
  unfold main_phases
  rw [if_neg (not_not.mpr hr)]

theorem wash_step_ctl_lt (s : State) (h : s.count < 6000) :
    ctl (wash_step s)
      = { ctl s with duty_cycle := if s.wash ≠ 0 then 90 else s.duty_cycle } := by
  unfold wash_step
  by_cases hw : s.wash ≠ 0
  · rw [if_pos hw, if_pos hw, washing_ctl_lt s h]
  · rw [if_neg hw, if_neg hw]
    rfl

theorem rinse_step_ctl_lt (s : State) (h : s.count < 6000) :
    ctl (rinse_step s)
      = { ctl s with duty_cycle := if s.rinse ≠ 0 then 50 else s.duty_cycle } := by
  unfold rinse_step
  by_cases hw : s.rinse ≠ 0
  · rw [if_pos hw, if_pos hw, rinsing_ctl_lt s h]
  · rw [if_neg hw, if_neg hw]
    rfl

theorem spin_step_ctl_lt (s : State) (h : s.count < 6000) :
    ctl (spin_step s)
      = { ctl s with duty_cycle := if s.spin ≠ 0 then 10 else s.duty_cycle } := by
  unfold spin_step
  by_cases hw : s.spin ≠ 0
  · rw [if_pos hw, if_pos hw, spinning_ctl_lt s h]
  · rw [if_neg hw, if_neg hw]
    rfl

/-- Two states that agree up to `PORTB` agree on every other field. -/
theorem ctl_fields {a b : State} (h : ctl a = b) :
    a.operational_mode = b.operational_mode ∧
    a.initial_operational_mode = b.initial_operational_mode ∧
    a.water_level = b.water_level ∧ a.initial_water_level = b.initial_water_level ∧
    a.running = b.running ∧ a.wash = b.wash ∧ a.rinse = b.rinse ∧
    a.rinse_cycles_completed = b.rinse_cycles_completed ∧ a.spin = b.spin ∧
    a.finished = b.finished ∧ a.duty_cycle = b.duty_cycle ∧ a.count = b.count ∧
    a.ssd_cc = b.ssd_cc ∧ a.PORTA = b.PORTA := by
  subst h
  exact ⟨rfl, rfl, rfl, rfl, rfl, rfl, rfl, rfl, rfl, rfl, rfl, rfl, rfl, rfl⟩

/-- The tail of a pass once the count has been reset: the rinse and spin
calls only set the duty cycle. -/
theorem rinse_spin_tail (a : State) (h : a.count < 6000) :
    ctl (spin_step (rinse_step a))
      = { ctl a with duty_cycle :=
            if a.spin ≠ 0 then 10 else if a.rinse ≠ 0 then 50 else a.duty_cycle } := by
  have h1 := rinse_step_ctl_lt a h
  obtain ⟨-, -, -, -, -, -, -, -, f9, -, f11, f12, -, -⟩ := ctl_fields h1
  have hc : (rinse_step a).count < 6000 := by rw [f12]; exact h
  rw [spin_step_ctl_lt _ hc, h1, f9, f11]
  by_cases hs : a.spin ≠ 0
  · simp only [ctl, hs, if_true, ne_eq, not_false_eq_true]
  · simp only [ctl, hs, if_false]

/-- A pass while running with less than 6000 ms on the clock changes no
field but `duty_cycle` and `PORTB`. -/
theorem main_phases_ctl_lt (s : State) (hr : s.running ≠ 0) (h : s.count < 6000) :
    ctl (main_phases s)
      = { ctl s with duty_cycle :=
            if s.spin ≠ 0 then 10 else if s.rinse ≠ 0 then 50
            else if s.wash ≠ 0 then 90 else s.duty_cycle } := by
  rw [main_phases_running s hr]
  have h1 := wash_step_ctl_lt s h
  obtain ⟨-, -, -, -, -, -, f7, -, f9, -, f11, f12, -, -⟩ := ctl_fields h1
  have hc : (wash_step s).count < 6000 := by rw [f12]; exact h
  rw [rinse_spin_tail _ hc, h1, f7, f9, f11]
  rfl

/-- A pass in which the wash completes: the rinse is entered with the clock
at zero. -/
theorem main_phases_wash_done (s : State) (hr : s.running ≠ 0) (hw : s.wash ≠ 0)
    (h : 6000 ≤ s.count) :
    ctl (main_phases s)
      = { ctl s with
          wash := 0
          rinse := 1
          count := 0
          duty_cycle := if s.spin ≠ 0 then 10 else 50 } := by
  rw [main_phases_running s hr]
  have e : wash_step s = washing s := if_pos hw
  rw [e, washing_of_ge s h, rinse_spin_tail _ (show (0 : Nat) < 6000 by decide)]
  by_cases hs : s.spin ≠ 0
  · simp only [ctl, hs, if_true, ne_eq, not_false_eq_true]
  · simp [ctl, hs]

/-- A pass in which the rinse completes, up to the call of `spinning`. -/
theorem main_phases_rinse_done (s : State) (hr : s.running ≠ 0) (hw : s.wash = 0)
    (hri : s.rinse ≠ 0) (h : 6000 ≤ s.count) :
    main_phases s = spin_step (rinsing_complete { s with duty_cycle := 50 }) := by
  rw [main_phases_running s hr]
  have e : wash_step s = s := if_neg (not_not.mpr hw)
  have e2 : rinse_step s = rinsing s := if_pos hri
  rw [e, e2, rinsing_of_ge s h]

/-- A pass in which the only or the last rinse completes: the spin is
entered with the clock at zero. -/
theorem main_phases_rinse_to_spin (s : State) (hr : s.running ≠ 0) (hw : s.wash = 0)
    (hri : s.rinse ≠ 0) (h : 6000 ≤ s.count)
    (hm : s.operational_mode = 0 ∨ (s.rinse_cycles_completed + 1) % 256 = 2) :
    ctl (main_phases s)
      = { ctl s with
          rinse_cycles_completed := (s.rinse_cycles_completed + 1) % 256
          rinse := 0
          spin := 1
          count := 0
          duty_cycle := 10 } := by
  rw [main_phases_rinse_done s hr hw hri h]
  have e : rinsing_complete { s with duty_cycle := 50 }
      = { s with
          duty_cycle := 50
          rinse_cycles_completed := (s.rinse_cycles_completed + 1) % 256
          rinse := 0
          spin := 1
          count := 0 } := by
    unfold rinsing_complete
    by_cases hm0 : s.operational_mode = 0
    · simp [hm0]
    · rcases hm with hm | hm
      · exact absurd hm hm0
      · simp [hm0, hm]
  rw [e]
  have e3 : ∀ a : State, a.spin = 1 → spin_step a = spinning a := fun a ha => by
    unfold spin_step
    rw [if_pos (by rw [ha]; decide)]
  rw [e3 _ rfl, spinning_ctl_lt _ (show (0 : Nat) < 6000 by decide)]
  rfl

/-- A pass in which the first rinse of Extended mode completes: the rinse
restarts with the clock at zero. -/
theorem main_phases_rinse_again (s : State) (hr : s.running ≠ 0) (hw : s.wash = 0)
    (hri : s.rinse ≠ 0) (h : 6000 ≤ s.count) (hm : s.operational_mode ≠ 0)
    (hc : (s.rinse_cycles_completed + 1) % 256 = 1) :
    ctl (main_phases s)
      = { ctl s with
          rinse_cycles_completed := 1
          count := 0
          duty_cycle := if s.spin ≠ 0 then 10 else 50 } := by
  rw [main_phases_rinse_done s hr hw hri h]
  have e : rinsing_complete { s with duty_cycle := 50 }
      = { s with duty_cycle := 50, rinse_cycles_completed := 1, count := 0 } := by
    unfold rinsing_complete
    simp [hm, hc]
  rw [e, spin_step_ctl_lt _ (show (0 : Nat) < 6000 by decide)]
  by_cases hs : s.spin ≠ 0
  · simp only [ctl, hs, if_true, ne_eq, not_false_eq_true]
  · simp [ctl, hs]

/-- A pass in which the spin completes. -/
theorem main_phases_spin_done (s : State) (hr : s.running ≠ 0) (hw : s.wash = 0)
    (hri : s.rinse = 0) (hs : s.spin ≠ 0) (h : 6000 ≤ s.count) :
    main_phases s = { s with duty_cycle := 100, spin := 0, running := 0, finished := 1 } := by
  rw [main_phases_running s hr]
  have e : wash_step s = s := if_neg (not_not.mpr hw)
  have e2 : rinse_step s = s := if_neg (not_not.mpr hri)
  have e3 : spin_step s = spinning s := if_pos hs
  rw [e, e2, e3, spinning_of_ge s h]

/-- Without a divergence between the inputs and their snapshot a pass of the
main loop is the phase dispatch alone. -/
theorem main_loop_same (s : State) (hm : s.operational_mode = s.initial_operational_mode)
    (hl : s.water_level = s.initial_water_level) :
    main_loop s = main_phases s := by
  obtain ⟨h1, h2, h3, h4⟩ := main_phases_inputs s
  have e : ¬ (c_ne (main_phases s).operational_mode (main_phases s).initial_operational_mode
      ||| c_ne (main_phases s).water_level (main_phases s).initial_water_level) ≠ 0 := by
    rw [c_ne_or_ne_zero, h1, h2, h3, h4]
    intro hd
    rcases hd with hd | hd
    · exact hd hm
    · exact hd hl
  unfold main_loop
  exact if_neg e

/-- A pass of the main loop is the phase dispatch, followed by `reset` when
the inputs differ from their snapshot. -/
theorem main_loop_cases (s : State) :
    main_loop s = main_phases s ∨ main_loop s = reset (main_phases s) := by
  by_cases hd : s.operational_mode ≠ s.initial_operational_mode ∨
      s.water_level ≠ s.initial_water_level
  · exact Or.inr (main_loop_diverged s hd)
  · refine Or.inl (main_loop_same s ?_ ?_)
    · by_contra hn
      exact hd (Or.inl hn)
    · by_contra hn
      exact hd (Or.inr hn)

/-- The fields the tick handler writes and those it leaves alone. -/
theorem tick_effect (pind : Nat) (s : State) :
    (TIMER1_COMPA_vect pind s).operational_mode = pind &&& 0x10 ∧
    (TIMER1_COMPA_vect pind s).initial_operational_mode = s.initial_operational_mode ∧
    (TIMER1_COMPA_vect pind s).water_level = pind &&& 0x03 ∧
    (TIMER1_COMPA_vect pind s).initial_water_level = s.initial_water_level ∧
    (TIMER1_COMPA_vect pind s).running = s.running ∧
    (TIMER1_COMPA_vect pind s).wash = s.wash ∧
    (TIMER1_COMPA_vect pind s).rinse = s.rinse ∧
    (TIMER1_COMPA_vect pind s).rinse_cycles_completed = s.rinse_cycles_completed ∧
    (TIMER1_COMPA_vect pind s).spin = s.spin ∧
    (TIMER1_COMPA_vect pind s).finished = s.finished ∧
    (TIMER1_COMPA_vect pind s).duty_cycle = s.duty_cycle ∧
    (TIMER1_COMPA_vect pind s).count
      = (if s.running ≠ 0 then (s.count + 1) % 2 ^ 32 else s.count) ∧
    (TIMER1_COMPA_vect pind s).PORTB = s.PORTB := by
  unfold TIMER1_COMPA_vect tick_display tick_sample
  simp only [apply_ite State.operational_mode,
    apply_ite State.initial_operational_mode, apply_ite State.water_level,
    apply_ite State.initial_water_level, apply_ite State.running, apply_ite State.wash,
    apply_ite State.rinse, apply_ite State.rinse_cycles_completed, apply_ite State.spin,
    apply_ite State.finished, apply_ite State.duty_cycle, apply_ite State.count,
    apply_ite State.PORTB, ite_self, and_self]

/-! ## The invariant of the reachable states -/

theorem inv_of_ctl {t x : State} (e : ctl t = x) (hx : Inv x) : Inv t := by
  obtain ⟨-, -, -, -, f5, f6, f7, f8, f9, f10, f11, -, -, -⟩ := ctl_fields e
  unfold Inv
  rw [f5, f6, f7, f8, f9, f10, f11]
  exact hx

theorem inv_init : Inv init := by
  unfold Inv InvF init
  simp

theorem inv_reset (s : State) : Inv (reset s) := by
  unfold Inv InvF reset
  simp

theorem inv_start (s : State) (h : Inv s) : Inv (start s) := by
  unfold start
  by_cases hw : s.water_level = 3
  · rw [if_pos hw]
    exact h
  · rw [if_neg hw]
    by_cases hr : s.running ≠ 0
    · rw [if_pos hr]
      exact h
    · rw [if_neg hr]
      unfold Inv InvF at h ⊢
      rcases h with h | h | h | h
      · obtain ⟨-, -, h3, h4, -, h6, -⟩ := h
        simp [h3, h4, h6]
      · exact absurd (by rw [h.1]; decide) hr
      · exact absurd (by rw [h.1]; decide) hr
      · exact absurd (by rw [h.1]; decide) hr

theorem inv_tick (pind : Nat) (s : State) (h : Inv s) : Inv (TIMER1_COMPA_vect pind s) := by
  obtain ⟨-, -, -, -, f5, f6, f7, f8, f9, f10, f11, -, -⟩ := tick_effect pind s
  unfold Inv
  rw [f5, f6, f7, f8, f9, f10, f11]
  exact h

theorem inv_main_phases (s : State) (h : Inv s) : Inv (main_phases s) := by
  have h0 := h
  unfold Inv InvF at h
  rcases h with h | h | h | h
  · rw [main_phases_idle s h.1]
    exact h0
  · obtain ⟨h1, h2, h3, h4, h5, h6, h7⟩ := h
    have hr : s.running ≠ 0 := by rw [h1]; decide
    by_cases hc : s.count < 6000
    · refine inv_of_ctl (main_phases_ctl_lt s hr hc) ?_
      unfold Inv InvF
      simp [ctl, h1, h2, h3, h4, h5, h7]
    · refine inv_of_ctl (main_phases_wash_done s hr (by rw [h2]; decide) (by omega)) ?_
      unfold Inv InvF
      simp [ctl, h1, h4, h5, h7]
  · obtain ⟨h1, h2, h3, h4, h5, h6, h7⟩ := h
    have hr : s.running ≠ 0 := by rw [h1]; decide
    have hri : s.rinse ≠ 0 := by rw [h3]; decide
    by_cases hc : s.count < 6000
    · refine inv_of_ctl (main_phases_ctl_lt s hr hc) ?_
      unfold Inv InvF
      simp [ctl, h1, h2, h3, h4, h5, h7]
    · by_cases hm : s.operational_mode = 0 ∨ (s.rinse_cycles_completed + 1) % 256 = 2
      · refine inv_of_ctl (main_phases_rinse_to_spin s hr h2 hri (by omega) hm) ?_
        unfold Inv InvF
        simp [ctl, h1, h2, h5]
        omega
      · have hm0 : s.operational_mode ≠ 0 := fun hn => hm (Or.inl hn)
        have hcy : (s.rinse_cycles_completed + 1) % 256 = 1 := by
          have : (s.rinse_cycles_completed + 1) % 256 ≠ 2 := fun hn => hm (Or.inr hn)
          omega
        refine inv_of_ctl (main_phases_rinse_again s hr h2 hri (by omega) hm0 hcy) ?_
        unfold Inv InvF
        simp [ctl, h1, h2, h3, h4, h5]
  · obtain ⟨h1, h2, h3, h4, h5, h6, h7⟩ := h
    have hr : s.running ≠ 0 := by rw [h1]; decide
    by_cases hc : s.count < 6000
    · refine inv_of_ctl (main_phases_ctl_lt s hr hc) ?_
      unfold Inv InvF
      simp [ctl, h1, h2, h3, h4, h5, h7]
    · rw [main_phases_spin_done s hr h2 h3 (by rw [h4]; decide) (by omega)]
      unfold Inv InvF
      simp [h2, h3, h7]

theorem inv_main_loop (s : State) (h : Inv s) : Inv (main_loop s) := by
  rcases main_loop_cases s with e | e
  · rw [e]
    exact inv_main_phases s h
  · rw [e]
    exact inv_reset _

theorem inv_step (e : Event) (s : State) (h : Inv s) : Inv (step e s) := by
  cases e with
  | start => exact inv_start s h
  | reset => exact inv_reset s
  | tick pind => exact inv_tick pind s h
  | loop => exact inv_main_loop s h

theorem inv_run (es : List Event) : ∀ s : State, Inv s → Inv (run es s) := by
  induction es with
  | nil => exact fun s h => h
  | cons e es ih => exact fun s h => ih (step e s) (inv_step e s h)

/-- Every state reachable from the initial state satisfies the invariant. -/
theorem inv_reachable (es : List Event) : Inv (run es init) :=
  inv_run es init inv_init

/-- After a pass of the phase dispatch from a state of the invariant, a wash
in progress has the washing duty cycle. -/
theorem main_phases_wash_duty (s : State) (h : Inv s) :
    (main_phases s).wash = 1 → (main_phases s).duty_cycle = 90 := by
  unfold Inv InvF at h
  rcases h with h | h | h | h
  · rw [main_phases_idle s h.1]
    intro hw
    have h2 : s.wash = 0 := h.2.1
    have hw2 : s.wash = 1 := hw
    omega
  · obtain ⟨h1, h2, h3, h4, h5, h6, h7⟩ := h
    have hr : s.running ≠ 0 := by rw [h1]; decide
    by_cases hc : s.count < 6000
    · obtain ⟨-, -, -, -, -, -, -, -, -, -, f11, -, -, -⟩ :=
        ctl_fields (main_phases_ctl_lt s hr hc)
      intro _
      rw [f11]
      simp [h2, h3, h4]
    · obtain ⟨-, -, -, -, -, f6, -, -, -, -, -, -, -, -⟩ :=
        ctl_fields (main_phases_wash_done s hr (by rw [h2]; decide) (by omega))
      intro hw
      rw [f6] at hw
      exact absurd hw (show ¬ (0 : Nat) = 1 by decide)
  · obtain ⟨h1, h2, h3, h4, h5, h6, h7⟩ := h
    have hr : s.running ≠ 0 := by rw [h1]; decide
    have hri : s.rinse ≠ 0 := by rw [h3]; decide
    have key : (main_phases s).wash = 0 := by
      by_cases hc : s.count < 6000
      · exact (ctl_fields (main_phases_ctl_lt s hr hc)).2.2.2.2.2.1.trans h2
      · by_cases hm : s.operational_mode = 0 ∨ (s.rinse_cycles_completed + 1) % 256 = 2
        · exact (ctl_fields
            (main_phases_rinse_to_spin s hr h2 hri (by omega) hm)).2.2.2.2.2.1.trans h2
        · have hm0 : s.operational_mode ≠ 0 := fun hn => hm (Or.inl hn)
          have hcy : (s.rinse_cycles_completed + 1) % 256 = 1 := by
            have : (s.rinse_cycles_completed + 1) % 256 ≠ 2 := fun hn => hm (Or.inr hn)
            omega
          exact (ctl_fields
            (main_phases_rinse_again s hr h2 hri (by omega) hm0 hcy)).2.2.2.2.2.1.trans h2
    intro hw
    rw [key] at hw
    exact absurd hw (by decide)
  · obtain ⟨h1, h2, h3, h4, h5, h6, h7⟩ := h
    have hr : s.running ≠ 0 := by rw [h1]; decide
    have key : (main_phases s).wash = 0 := by
      by_cases hc : s.count < 6000
      · exact (ctl_fields (main_phases_ctl_lt s hr hc)).2.2.2.2.2.1.trans h2
      · rw [main_phases_spin_done s hr h2 h3 (by rw [h4]; decide) (by omega)]
        exact h2
    intro hw
    rw [key] at hw
    exact absurd hw (by decide)

/-- C11: in every state reachable from the initial state by `start`,
`reset`, timer ticks and passes of the main loop, at most one of `wash`,
`rinse`, `spin` is 1; `running = 1` holds exactly when one of them is 1; and
`finished = 1` implies `running = 0` and `wash = rinse = spin = 0`. -/
theorem phase_flags_exclusive (es : List Event) :
    ¬ ((run es init).wash = 1 ∧ (run es init).rinse = 1) ∧
    ¬ ((run es init).wash = 1 ∧ (run es init).spin = 1) ∧
    ¬ ((run es init).rinse = 1 ∧ (run es init).spin = 1) ∧
    ((run es init).running = 1 ↔
      ((run es init).wash = 1 ∨ (run es init).rinse = 1 ∨ (run es init).spin = 1)) ∧
    ((run es init).finished = 1 →
      (run es init).running = 0 ∧ (run es init).wash = 0 ∧ (run es init).rinse = 0 ∧
      (run es init).spin = 0) := by
  have h := inv_reachable es
  unfold Inv InvF at h
  omega

/-- C12: in every reachable state `rinse_cycles_completed` is at most 2, and
while `rinse = 1` it does not exceed the rinse target of the mode, 1 in
Normal mode and 2 in Extended mode, whether the mode is read from the live
`operational_mode` or from its snapshot. -/
theorem rinse_cycles_bounded (es : List Event) :
    (run es init).rinse_cycles_completed ≤ 2 ∧
    ((run es init).rinse = 1 →
      (run es init).rinse_cycles_completed
        ≤ (if (run es init).operational_mode = 0 then 1 else 2) ∧
      (run es init).rinse_cycles_completed
        ≤ (if (run es init).initial_operational_mode = 0 then 1 else 2)) := by
  have h := inv_reachable es
  unfold Inv InvF at h
  refine ⟨by omega, fun hr => ⟨?_, ?_⟩⟩
  · have h1 : (run es init).rinse_cycles_completed ≤ 1 := by omega
    split_ifs <;> omega
  · have h1 : (run es init).rinse_cycles_completed ≤ 1 := by omega
    split_ifs <;> omega

/-- C14, as stated, fails: directly after `start` from the initial state the
machine is washing (`wash = 1`) and `duty_cycle` is still the idle value 100,
not 90; `start` does not write `duty_cycle`. -/
theorem duty_after_start_counterexample :
    (run [Event.start] init).wash = 1 ∧ (run [Event.start] init).duty_cycle = 100 ∧
    (run [Event.start] init).duty_cycle ≠ 90 := by
  decide

/-- C14, amended: in every reachable state `duty_cycle` is 100 when not
running (Idle or Finished), 50 when `rinse = 1` and 10 when `spin = 1`; when
`wash = 1` it is 90 or, between `start` and the next pass of the main loop,
still 100; and after a pass of the main loop `wash = 1` gives 90. -/
theorem duty_by_phase (es : List Event) :
    ((run es init).running = 0 → (run es init).duty_cycle = 100) ∧
    ((run es init).rinse = 1 → (run es init).duty_cycle = 50) ∧
    ((run es init).spin = 1 → (run es init).duty_cycle = 10) ∧
    ((run es init).wash = 1 →
      (run es init).duty_cycle = 90 ∨ (run es init).duty_cycle = 100) ∧
    ((main_loop (run es init)).wash = 1 → (main_loop (run es init)).duty_cycle = 90) := by
  have h := inv_reachable es
  refine ⟨?_, ?_, ?_, ?_, ?_⟩
  · unfold Inv InvF at h
    omega
  · unfold Inv InvF at h
    omega
  · unfold Inv InvF at h
    omega
  · unfold Inv InvF at h
    omega
  · rcases main_loop_cases (run es init) with e | e
    · rw [e]
      exact main_phases_wash_duty _ h
    · rw [e]
      intro hw
      exact absurd ((reset_fields _).2.1.symm.trans hw) (by decide)

/-- C15, as stated, fails: in a finished state whose live mode differs from
the snapshot a pass of the main loop calls `reset` and clears `finished`;
the divergence test is not guarded by `running`. -/
theorem finished_cleared_counterexample :
    ex_finished_mode_changed.running = 0 ∧ ex_finished_mode_changed.finished = 1 ∧
    (main_loop ex_finished_mode_changed).finished = 0 := by
  decide

/-- C15, amended: in a state with `running = 0` and `finished = 1` a timer
tick leaves `finished = 1` for every sampled input; a pass of the main loop
leaves `finished = 1` when the live mode and water level equal their
snapshots, and clears it (through `reset`) when one of them differs. -/
theorem finished_kept (s : State) (hrun : s.running = 0) (hfin : s.finished = 1) :
    (∀ pind : Nat, (TIMER1_COMPA_vect pind s).finished = 1) ∧
    (s.operational_mode = s.initial_operational_mode ∧
      s.water_level = s.initial_water_level → (main_loop s).finished = 1) ∧
    (s.operational_mode ≠ s.initial_operational_mode ∨
      s.water_level ≠ s.initial_water_level → (main_loop s).finished = 0) := by
  refine ⟨fun pind => ?_, fun h => ?_, fun h => ?_⟩
  · exact (tick_effect pind s).2.2.2.2.2.2.2.2.2.1.trans hfin
  · rw [main_loop_same s h.1 h.2, main_phases_idle s hrun]
    exact hfin
  · rw [main_loop_diverged s h]
    exact (reset_fields _).2.2.2.2.2.1

/-- C15 (amended) at a concrete input: a finished state with matching
inputs stays finished over a pass of the main loop. -/
theorem finished_kept_witness :
    (main_loop { init with finished := 1 }).finished = 1 :=
  (finished_kept { init with finished := 1 } rfl rfl).2.1 ⟨rfl, rfl⟩


/-! ## The LED patterns below 6000 ms -/

theorem rinsing_first_blank (s : State) (h1 : 1400 ≤ s.count) (h : s.count < 1500) :
    (rinsing s).PORTB = 0 := by
  unfold rinsing
  dsimp only [setPORTB]
  rw [if_neg (show ¬ s.count < 350 by omega),
    if_neg (show ¬ s.count < 700 by omega),
    if_neg (show ¬ s.count < 1050 by omega),
    if_neg (show ¬ s.count < 1400 by omega),
    if_pos (show s.count < 1500 by omega)]

theorem rinsing_second_blank (s : State) (h1 : 2900 ≤ s.count) (h : s.count < 3000) :
    (rinsing s).PORTB = 0 := by
  unfold rinsing
  dsimp only [setPORTB]
  rw [if_neg (show ¬ s.count < 350 by omega),
    if_neg (show ¬ s.count < 700 by omega),
    if_neg (show ¬ s.count < 1050 by omega),
    if_neg (show ¬ s.count < 1400 by omega),
    if_neg (show ¬ s.count < 1500 by omega),
    if_neg (show ¬ s.count < 1850 by omega),
    if_neg (show ¬ s.count < 2200 by omega),
    if_neg (show ¬ s.count < 2550 by omega),
    if_neg (show ¬ s.count < 2900 by omega),
    if_pos (show s.count < 3000 by omega)]

/-- The blink of the rinse: from 3000 ms the four LEDs are on in the even
windows of 500 ms and off in the odd ones. -/
theorem rinsing_blink (s : State) (h1 : 3000 ≤ s.count) (h : s.count < 6000) :
    (rinsing s).PORTB = if (s.count - 3000) / 500 % 2 = 0 then 0xF else 0 := by
  have hq : (s.count - 3000) / 500 = 0 ∨ (s.count - 3000) / 500 = 1 ∨
      (s.count - 3000) / 500 = 2 ∨ (s.count - 3000) / 500 = 3 ∨
      (s.count - 3000) / 500 = 4 ∨ (s.count - 3000) / 500 = 5 := by
    omega
  rcases hq with hq | hq | hq | hq | hq | hq
  · rw [hq]
    unfold rinsing
    dsimp only [setPORTB]
    rw [if_neg (show ¬ s.count < 350 by omega),
      if_neg (show ¬ s.count < 700 by omega),
      if_neg (show ¬ s.count < 1050 by omega),
      if_neg (show ¬ s.count < 1400 by omega),
      if_neg (show ¬ s.count < 1500 by omega),
      if_neg (show ¬ s.count < 1850 by omega),
      if_neg (show ¬ s.count < 2200 by omega),
      if_neg (show ¬ s.count < 2550 by omega),
      if_neg (show ¬ s.count < 2900 by omega),
      if_neg (show ¬ s.count < 3000 by omega),
      if_pos (show s.count < 3500 by omega)]
    rfl
  · rw [hq]
    unfold rinsing
    dsimp only [setPORTB]
    rw [if_neg (show ¬ s.count < 350 by omega),
      if_neg (show ¬ s.count < 700 by omega),
      if_neg (show ¬ s.count < 1050 by omega),
      if_neg (show ¬ s.count < 1400 by omega),
      if_neg (show ¬ s.count < 1500 by omega),
      if_neg (show ¬ s.count < 1850 by omega),
      if_neg (show ¬ s.count < 2200 by omega),
      if_neg (show ¬ s.count < 2550 by omega),
      if_neg (show ¬ s.count < 2900 by omega),
      if_neg (show ¬ s.count < 3000 by omega),
      if_neg (show ¬ s.count < 3500 by omega),
      if_pos (show s.count < 4000 by omega)]
    rfl
  · rw [hq]
    unfold rinsing
    dsimp only [setPORTB]
    rw [if_neg (show ¬ s.count < 350 by omega),
      if_neg (show ¬ s.count < 700 by omega),
      if_neg (show ¬ s.count < 1050 by omega),
      if_neg (show ¬ s.count < 1400 by omega),
      if_neg (show ¬ s.count < 1500 by omega),
      if_neg (show ¬ s.count < 1850 by omega),
      if_neg (show ¬ s.count < 2200 by omega),
      if_neg (show ¬ s.count < 2550 by omega),
      if_neg (show ¬ s.count < 2900 by omega),
      if_neg (show ¬ s.count < 3000 by omega),
      if_neg (show ¬ s.count < 3500 by omega),
      if_neg (show ¬ s.count < 4000 by omega),
      if_pos (show s.count < 4500 by omega)]
    rfl
  · rw [hq]
    unfold rinsing
    dsimp only [setPORTB]
    rw [if_neg (show ¬ s.count < 350 by omega),
      if_neg (show ¬ s.count < 700 by omega),
      if_neg (show ¬ s.count < 1050 by omega),
      if_neg (show ¬ s.count < 1400 by omega),
      if_neg (show ¬ s.count < 1500 by omega),
      if_neg (show ¬ s.count < 1850 by omega),
      if_neg (show ¬ s.count < 2200 by omega),
      if_neg (show ¬ s.count < 2550 by omega),
      if_neg (show ¬ s.count < 2900 by omega),
      if_neg (show ¬ s.count < 3000 by omega),
      if_neg (show ¬ s.count < 3500 by omega),
      if_neg (show ¬ s.count < 4000 by omega),
      if_neg (show ¬ s.count < 4500 by omega),
      if_pos (show s.count < 5000 by omega)]
    rfl
  · rw [hq]
    unfold rinsing
    dsimp only [setPORTB]
    rw [if_neg (show ¬ s.count < 350 by omega),
      if_neg (show ¬ s.count < 700 by omega),
      if_neg (show ¬ s.count < 1050 by omega),
      if_neg (show ¬ s.count < 1400 by omega),
      if_neg (show ¬ s.count < 1500 by omega),
      if_neg (show ¬ s.count < 1850 by omega),
      if_neg (show ¬ s.count < 2200 by omega),
      if_neg (show ¬ s.count < 2550 by omega),
      if_neg (show ¬ s.count < 2900 by omega),
      if_neg (show ¬ s.count < 3000 by omega),
      if_neg (show ¬ s.count < 3500 by omega),
      if_neg (show ¬ s.count < 4000 by omega),
      if_neg (show ¬ s.count < 4500 by omega),
      if_neg (show ¬ s.count < 5000 by omega),
      if_pos (show s.count < 5500 by omega)]
    rfl
  · rw [hq]
    unfold rinsing
    dsimp only [setPORTB]
    rw [if_neg (show ¬ s.count < 350 by omega),
      if_neg (show ¬ s.count < 700 by omega),
      if_neg (show ¬ s.count < 1050 by omega),
      if_neg (show ¬ s.count < 1400 by omega),
      if_neg (show ¬ s.count < 1500 by omega),
      if_neg (show ¬ s.count < 1850 by omega),
      if_neg (show ¬ s.count < 2200 by omega),
      if_neg (show ¬ s.count < 2550 by omega),
      if_neg (show ¬ s.count < 2900 by omega),
      if_neg (show ¬ s.count < 3000 by omega),
      if_neg (show ¬ s.count < 3500 by omega),
      if_neg (show ¬ s.count < 4000 by omega),
      if_neg (show ¬ s.count < 4500 by omega),
      if_neg (show ¬ s.count < 5000 by omega),
      if_neg (show ¬ s.count < 5500 by omega),
      if_pos (show s.count < 6000 by omega)]
    rfl

/-- The blink of the spin: from 3000 ms the four LEDs are on in the even
windows of 250 ms and off in the odd ones. -/
theorem spinning_blink (s : State) (h1 : 3000 ≤ s.count) (h : s.count < 6000) :
    (spinning s).PORTB = if (s.count - 3000) / 250 % 2 = 0 then 0xF else 0 := by
  have hq : (s.count - 3000) / 250 = 0 ∨ (s.count - 3000) / 250 = 1 ∨
      (s.count - 3000) / 250 = 2 ∨ (s.count - 3000) / 250 = 3 ∨
      (s.count - 3000) / 250 = 4 ∨ (s.count - 3000) / 250 = 5 ∨
      (s.count - 3000) / 250 = 6 ∨ (s.count - 3000) / 250 = 7 ∨
      (s.count - 3000) / 250 = 8 ∨ (s.count - 3000) / 250 = 9 ∨
      (s.count - 3000) / 250 = 10 ∨ (s.count - 3000) / 250 = 11 := by
    omega
  rcases hq with hq | hq | hq | hq | hq | hq | hq | hq | hq | hq | hq | hq
  · rw [hq]
    unfold spinning
    dsimp only [setPORTB]
    rw [if_neg (show ¬ s.count < 375 by omega),
      if_neg (show ¬ s.count < 750 by omega),
      if_neg (show ¬ s.count < 1125 by omega),
      if_neg (show ¬ s.count < 1350 by omega),
      if_neg (show ¬ s.count < 1500 by omega),
      if_neg (show ¬ s.count < 1875 by omega),
      if_neg (show ¬ s.count < 2250 by omega),
      if_neg (show ¬ s.count < 2625 by omega),
      if_neg (show ¬ s.count < 2850 by omega),
      if_neg (show ¬ s.count < 3000 by omega),
      if_pos (show s.count < 3250 by omega)]
    rfl
  · rw [hq]
    unfold spinning
    dsimp only [setPORTB]
    rw [if_neg (show ¬ s.count < 375 by omega),
      if_neg (show ¬ s.count < 750 by omega),
      if_neg (show ¬ s.count < 1125 by omega),
      if_neg (show ¬ s.count < 1350 by omega),
      if_neg (show ¬ s.count < 1500 by omega),
      if_neg (show ¬ s.count < 1875 by omega),
      if_neg (show ¬ s.count < 2250 by omega),
      if_neg (show ¬ s.count < 2625 by omega),
      if_neg (show ¬ s.count < 2850 by omega),
      if_neg (show ¬ s.count < 3000 by omega),
      if_neg (show ¬ s.count < 3250 by omega),
      if_pos (show s.count < 3500 by omega)]
    rfl
  · rw [hq]
    unfold spinning
    dsimp only [setPORTB]
    rw [if_neg (show ¬ s.count < 375 by omega),
      if_neg (show ¬ s.count < 750 by omega),
      if_neg (show ¬ s.count < 1125 by omega),
      if_neg (show ¬ s.count < 1350 by omega),
      if_neg (show ¬ s.count < 1500 by omega),
      if_neg (show ¬ s.count < 1875 by omega),
      if_neg (show ¬ s.count < 2250 by omega),
      if_neg (show ¬ s.count < 2625 by omega),
      if_neg (show ¬ s.count < 2850 by omega),
      if_neg (show ¬ s.count < 3000 by omega),
      if_neg (show ¬ s.count < 3250 by omega),
      if_neg (show ¬ s.count < 3500 by omega),
      if_pos (show s.count < 3750 by omega)]
    rfl
  · rw [hq]
    unfold spinning
    dsimp only [setPORTB]
    rw [if_neg (show ¬ s.count < 375 by omega),
      if_neg (show ¬ s.count < 750 by omega),
      if_neg (show ¬ s.count < 1125 by omega),
      if_neg (show ¬ s.count < 1350 by omega),
      if_neg (show ¬ s.count < 1500 by omega),
      if_neg (show ¬ s.count < 1875 by omega),
      if_neg (show ¬ s.count < 2250 by omega),
      if_neg (show ¬ s.count < 2625 by omega),
      if_neg (show ¬ s.count < 2850 by omega),
      if_neg (show ¬ s.count < 3000 by omega),
      if_neg (show ¬ s.count < 3250 by omega),
      if_neg (show ¬ s.count < 3500 by omega),
      if_neg (show ¬ s.count < 3750 by omega),
      if_pos (show s.count < 4000 by omega)]
    rfl
  · rw [hq]
    unfold spinning
    dsimp only [setPORTB]
    rw [if_neg (show ¬ s.count < 375 by omega),
      if_neg (show ¬ s.count < 750 by omega),
      if_neg (show ¬ s.count < 1125 by omega),
      if_neg (show ¬ s.count < 1350 by omega),
      if_neg (show ¬ s.count < 1500 by omega),
      if_neg (show ¬ s.count < 1875 by omega),
      if_neg (show ¬ s.count < 2250 by omega),
      if_neg (show ¬ s.count < 2625 by omega),
      if_neg (show ¬ s.count < 2850 by omega),
      if_neg (show ¬ s.count < 3000 by omega),
      if_neg (show ¬ s.count < 3250 by omega),
      if_neg (show ¬ s.count < 3500 by omega),
      if_neg (show ¬ s.count < 3750 by omega),
      if_neg (show ¬ s.count < 4000 by omega),
      if_pos (show s.count < 4250 by omega)]
    rfl
  · rw [hq]
    unfold spinning
    dsimp only [setPORTB]
    rw [if_neg (show ¬ s.count < 375 by omega),
      if_neg (show ¬ s.count < 750 by omega),
      if_neg (show ¬ s.count < 1125 by omega),
      if_neg (show ¬ s.count < 1350 by omega),
      if_neg (show ¬ s.count < 1500 by omega),
      if_neg (show ¬ s.count < 1875 by omega),
      if_neg (show ¬ s.count < 2250 by omega),
      if_neg (show ¬ s.count < 2625 by omega),
      if_neg (show ¬ s.count < 2850 by omega),
      if_neg (show ¬ s.count < 3000 by omega),
      if_neg (show ¬ s.count < 3250 by omega),
      if_neg (show ¬ s.count < 3500 by omega),
      if_neg (show ¬ s.count < 3750 by omega),
      if_neg (show ¬ s.count < 4000 by omega),
      if_neg (show ¬ s.count < 4250 by omega),
      if_pos (show s.count < 4500 by omega)]
    rfl
  · rw [hq]
    unfold spinning
    dsimp only [setPORTB]
    rw [if_neg (show ¬ s.count < 375 by omega),
      if_neg (show ¬ s.count < 750 by omega),
      if_neg (show ¬ s.count < 1125 by omega),
      if_neg (show ¬ s.count < 1350 by omega),
      if_neg (show ¬ s.count < 1500 by omega),
      if_neg (show ¬ s.count < 1875 by omega),
      if_neg (show ¬ s.count < 2250 by omega),
      if_neg (show ¬ s.count < 2625 by omega),
      if_neg (show ¬ s.count < 2850 by omega),
      if_neg (show ¬ s.count < 3000 by omega),
      if_neg (show ¬ s.count < 3250 by omega),
      if_neg (show ¬ s.count < 3500 by omega),
      if_neg (show ¬ s.count < 3750 by omega),
      if_neg (show ¬ s.count < 4000 by omega),
      if_neg (show ¬ s.count < 4250 by omega),
      if_neg (show ¬ s.count < 4500 by omega),
      if_pos (show s.count < 4750 by omega)]
    rfl
  · rw [hq]
    unfold spinning
    dsimp only [setPORTB]
    rw [if_neg (show ¬ s.count < 375 by omega),
      if_neg (show ¬ s.count < 750 by omega),
      if_neg (show ¬ s.count < 1125 by omega),
      if_neg (show ¬ s.count < 1350 by omega),
      if_neg (show ¬ s.count < 1500 by omega),
      if_neg (show ¬ s.count < 1875 by omega),
      if_neg (show ¬ s.count < 2250 by omega),
      if_neg (show ¬ s.count < 2625 by omega),
      if_neg (show ¬ s.count < 2850 by omega),
      if_neg (show ¬ s.count < 3000 by omega),
      if_neg (show ¬ s.count < 3250 by omega),
      if_neg (show ¬ s.count < 3500 by omega),
      if_neg (show ¬ s.count < 3750 by omega),
      if_neg (show ¬ s.count < 4000 by omega),
      if_neg (show ¬ s.count < 4250 by omega),
      if_neg (show ¬ s.count < 4500 by omega),
      if_neg (show ¬ s.count < 4750 by omega),
      if_pos (show s.count < 5000 by omega)]
    rfl
  · rw [hq]
    unfold spinning
    dsimp only [setPORTB]
    rw [if_neg (show ¬ s.count < 375 by omega),
      if_neg (show ¬ s.count < 750 by omega),
      if_neg (show ¬ s.count < 1125 by omega),
      if_neg (show ¬ s.count < 1350 by omega),
      if_neg (show ¬ s.count < 1500 by omega),
      if_neg (show ¬ s.count < 1875 by omega),
      if_neg (show ¬ s.count < 2250 by omega),
      if_neg (show ¬ s.count < 2625 by omega),
      if_neg (show ¬ s.count < 2850 by omega),
      if_neg (show ¬ s.count < 3000 by omega),
      if_neg (show ¬ s.count < 3250 by omega),
      if_neg (show ¬ s.count < 3500 by omega),
      if_neg (show ¬ s.count < 3750 by omega),
      if_neg (show ¬ s.count < 4000 by omega),
      if_neg (show ¬ s.count < 4250 by omega),
      if_neg (show ¬ s.count < 4500 by omega),
      if_neg (show ¬ s.count < 4750 by omega),
      if_neg (show ¬ s.count < 5000 by omega),
      if_pos (show s.count < 5250 by omega)]
    rfl
  · rw [hq]
    unfold spinning
    dsimp only [setPORTB]
    rw [if_neg (show ¬ s.count < 375 by omega),
      if_neg (show ¬ s.count < 750 by omega),
      if_neg (show ¬ s.count < 1125 by omega),
      if_neg (show ¬ s.count < 1350 by omega),
      if_neg (show ¬ s.count < 1500 by omega),
      if_neg (show ¬ s.count < 1875 by omega),
      if_neg (show ¬ s.count < 2250 by omega),
      if_neg (show ¬ s.count < 2625 by omega),
      if_neg (show ¬ s.count < 2850 by omega),
      if_neg (show ¬ s.count < 3000 by omega),
      if_neg (show ¬ s.count < 3250 by omega),
      if_neg (show ¬ s.count < 3500 by omega),
      if_neg (show ¬ s.count < 3750 by omega),
      if_neg (show ¬ s.count < 4000 by omega),
      if_neg (show ¬ s.count < 4250 by omega),
      if_neg (show ¬ s.count < 4500 by omega),
      if_neg (show ¬ s.count < 4750 by omega),
      if_neg (show ¬ s.count < 5000 by omega),
      if_neg (show ¬ s.count < 5250 by omega),
      if_pos (show s.count < 5500 by omega)]
    rfl
  · rw [hq]
    unfold spinning
    dsimp only [setPORTB]
    rw [if_neg (show ¬ s.count < 375 by omega),
      if_neg (show ¬ s.count < 750 by omega),
      if_neg (show ¬ s.count < 1125 by omega),
      if_neg (show ¬ s.count < 1350 by omega),
      if_neg (show ¬ s.count < 1500 by omega),
      if_neg (show ¬ s.count < 1875 by omega),
      if_neg (show ¬ s.count < 2250 by omega),
      if_neg (show ¬ s.count < 2625 by omega),
      if_neg (show ¬ s.count < 2850 by omega),
      if_neg (show ¬ s.count < 3000 by omega),
      if_neg (show ¬ s.count < 3250 by omega),
      if_neg (show ¬ s.count < 3500 by omega),
      if_neg (show ¬ s.count < 3750 by omega),
      if_neg (show ¬ s.count < 4000 by omega),
      if_neg (show ¬ s.count < 4250 by omega),
      if_neg (show ¬ s.count < 4500 by omega),
      if_neg (show ¬ s.count < 4750 by omega),
      if_neg (show ¬ s.count < 5000 by omega),
      if_neg (show ¬ s.count < 5250 by omega),
      if_neg (show ¬ s.count < 5500 by omega),
      if_pos (show s.count < 5750 by omega)]
    rfl
  · rw [hq]
    unfold spinning
    dsimp only [setPORTB]
    rw [if_neg (show ¬ s.count < 375 by omega),
      if_neg (show ¬ s.count < 750 by omega),
      if_neg (show ¬ s.count < 1125 by omega),
      if_neg (show ¬ s.count < 1350 by omega),
      if_neg (show ¬ s.count < 1500 by omega),
      if_neg (show ¬ s.count < 1875 by omega),
      if_neg (show ¬ s.count < 2250 by omega),
      if_neg (show ¬ s.count < 2625 by omega),
      if_neg (show ¬ s.count < 2850 by omega),
      if_neg (show ¬ s.count < 3000 by omega),
      if_neg (show ¬ s.count < 3250 by omega),
      if_neg (show ¬ s.count < 3500 by omega),
      if_neg (show ¬ s.count < 3750 by omega),
      if_neg (show ¬ s.count < 4000 by omega),
      if_neg (show ¬ s.count < 4250 by omega),
      if_neg (show ¬ s.count < 4500 by omega),
      if_neg (show ¬ s.count < 4750 by omega),
      if_neg (show ¬ s.count < 5000 by omega),
      if_neg (show ¬ s.count < 5250 by omega),
      if_neg (show ¬ s.count < 5500 by omega),
      if_neg (show ¬ s.count < 5750 by omega),
      if_pos (show s.count < 6000 by omega)]
    rfl

/-- C16: for every count below 6000 `rinsing` sets `duty_cycle = 50`, leaves
`wash`, `rinse`, `spin`, `count` and `rinse_cycles_completed` unchanged, and
writes the LED pattern: below 3000, with `m = count mod 1500`, the single
LED `8 >> (m / 350)` while `m < 1400` and 0 otherwise; from 3000 on, `0xF`
when `(count - 3000) / 500` is even and 0 when it is odd. -/
theorem rinsing_below_6000 (s : State) (h : s.count < 6000) :
    (rinsing s).duty_cycle = 50 ∧ (rinsing s).wash = s.wash ∧
    (rinsing s).rinse = s.rinse ∧ (rinsing s).spin = s.spin ∧
    (rinsing s).count = s.count ∧
    (rinsing s).rinse_cycles_completed = s.rinse_cycles_completed ∧
    (s.count < 3000 →
      (rinsing s).PORTB
        = if s.count % 1500 < 1400 then 8 >>> (s.count % 1500 / 350) else 0) ∧
    (3000 ≤ s.count →
      (rinsing s).PORTB = if (s.count - 3000) / 500 % 2 = 0 then 0xF else 0) := by
  obtain ⟨-, -, -, -, -, f6, f7, f8, f9, -, f11, f12, -, -⟩ :=
    ctl_fields (rinsing_ctl_lt s h)
  refine ⟨f11, f6, f7, f9, f12, f8, fun h3 => ?_, fun h3 => rinsing_blink s h3 h⟩
  by_cases c1 : s.count < 1400
  · have e : s.count % 1500 = s.count := by omega
    rw [e, if_pos c1]
    exact rinsing_first_pass s c1
  · by_cases c2 : s.count < 1500
    · have e : s.count % 1500 = s.count := by omega
      rw [e, if_neg c1]
      exact rinsing_first_blank s (by omega) c2
    · have e : s.count % 1500 = s.count - 1500 := by omega
      rw [e]
      by_cases c3 : s.count < 2900
      · rw [if_pos (by omega)]
        exact rinsing_second_pass s (by omega) c3
      · rw [if_neg (by omega)]
        exact rinsing_second_blank s (by omega) h3

/-- C16 at a concrete input: 3500 ms into the rinse the LEDs are off, in the
second (odd) window of the blink. -/
theorem rinsing_below_6000_witness :
    (rinsing (rinse_at 3500)).duty_cycle = 50 ∧ (rinsing (rinse_at 3500)).PORTB = 0 :=
  ⟨(rinsing_below_6000 (rinse_at 3500) (by decide)).1,
   ((rinsing_below_6000 (rinse_at 3500) (by decide)).2.2.2.2.2.2.2 (by decide)).trans
     (by decide)⟩

/-- C17: for every count from 3000 to 5999 `spinning` sets `duty_cycle = 10`
and writes `PORTB = 0xF` when `(count - 3000) / 250` is even and `PORTB = 0`
when it is odd: six cycles of 250 ms on and 250 ms off, twice the rate of
the blink of the rinse. -/
theorem spinning_blink_pattern (s : State) (h1 : 3000 ≤ s.count) (h : s.count < 6000) :
    (spinning s).duty_cycle = 10 ∧
    (spinning s).PORTB = if (s.count - 3000) / 250 % 2 = 0 then 0xF else 0 :=
  ⟨(ctl_fields (spinning_ctl_lt s h)).2.2.2.2.2.2.2.2.2.2.1, spinning_blink s h1 h⟩

/-- C17 at a concrete input: 3250 ms into the spin the LEDs are off, where
the rinse (first window of 500 ms) still has them on. -/
theorem spinning_blink_pattern_witness :
    (spinning (spin_at 3250)).duty_cycle = 10 ∧ (spinning (spin_at 3250)).PORTB = 0 :=
  ⟨(spinning_blink_pattern (spin_at 3250) (by decide) (by decide)).1,
   (spinning_blink_pattern (spin_at 3250) (by decide) (by decide)).2.trans (by decide)⟩

theorem rinsing_complete_PORTB (s : State) : (rinsing_complete s).PORTB = s.PORTB := by
  unfold rinsing_complete
  simp only [apply_ite State.PORTB, ite_self]

/-- C18, as stated, fails: with the four LEDs lit before the call
(`PORTB = 0xF`) and `count = 6000`, `rinsing` and `spinning` take their
completion branch and leave the LEDs lit; only `washing` writes `PORTB`
there. -/
theorem completion_leds_counterexample :
    6000 ≤ ex_rinse_done_leds_on.count ∧
    (rinsing ex_rinse_done_leds_on).PORTB &&& 0xF = 0xF ∧
    (rinsing ex_rinse_done_leds_on).PORTB &&& 0xF ≠ 0 ∧
    6000 ≤ ex_spin_done_leds_on.count ∧
    (spinning ex_spin_done_leds_on).PORTB &&& 0xF = 0xF ∧
    (spinning ex_spin_done_leds_on).PORTB &&& 0xF ≠ 0 := by
  decide

/-- C18, amended: for every count of 6000 or more each of `washing`,
`rinsing` and `spinning` takes its completion branch; `washing` switches
the LEDs off (`PORTB = 0`), while `rinsing` and `spinning` do not write
`PORTB`, so the LED output after the call is the one before it. -/
theorem completion_leds (s : State) (h : 6000 ≤ s.count) :
    washing s = { s with duty_cycle := 90, PORTB := 0x00, wash := 0, rinse := 1, count := 0 } ∧
    (washing s).PORTB &&& 0xF = 0 ∧
    rinsing s = rinsing_complete { s with duty_cycle := 50 } ∧
    (rinsing s).PORTB &&& 0xF = s.PORTB &&& 0xF ∧
    spinning s = { s with duty_cycle := 100, spin := 0, running := 0, finished := 1 } ∧
    (spinning s).PORTB &&& 0xF = s.PORTB &&& 0xF := by
  refine ⟨washing_of_ge s h, ?_, rinsing_of_ge s h, ?_, spinning_of_ge s h, ?_⟩
  · rw [washing_of_ge s h]
    exact Nat.zero_and 0xF
  · rw [rinsing_of_ge s h, rinsing_complete_PORTB]
  · rw [spinning_of_ge s h]

/-- C18 (amended) at a concrete input: with the LEDs lit, `washing` at count
6000 switches them off. -/
theorem completion_leds_witness :
    (washing { ex_wash_1500 with count := 6000, PORTB := 0xF }).PORTB &&& 0xF = 0 :=
  (completion_leds { ex_wash_1500 with count := 6000, PORTB := 0xF } (by decide)).2.1

/-- The completion branch of `rinsing` does not read the snapshot of the
mode. -/
theorem rinsing_complete_snapshot (s : State) (m : Nat) :
    rinsing_complete { s with initial_operational_mode := m }
      = { rinsing_complete s with initial_operational_mode := m } := by
  unfold rinsing_complete
  by_cases hm : s.operational_mode = 0
  · simp [hm]
  · by_cases h1 : (s.rinse_cycles_completed + 1) % 256 = 1
    · simp [hm, h1]
    · by_cases h2 : (s.rinse_cycles_completed + 1) % 256 = 2
      · simp [hm, h2]
      · simp [hm, h1, h2]

/-- C19, as stated, fails: two states with `rinse = 1` and `count = 6000`
that differ only in the live `operational_mode` (0 and 16; the snapshot is 0
in both) come out of `rinsing` differently, the first spinning and the
second rinsing again. -/
theorem rinsing_live_mode_counterexample :
    ex_rinse_done_live_extended = { ex_rinse_done with operational_mode := 16 } ∧
    ex_rinse_done.initial_operational_mode
      = ex_rinse_done_live_extended.initial_operational_mode ∧
    ex_rinse_done.rinse = 1 ∧ 6000 ≤ ex_rinse_done.count ∧
    (rinsing ex_rinse_done).rinse = 0 ∧ (rinsing ex_rinse_done).spin = 1 ∧
    (rinsing ex_rinse_done_live_extended).rinse = 1 ∧
    (rinsing ex_rinse_done_live_extended).spin = 0 := by
  decide

/-- C19, amended: the rinse-completion decision depends on the live
`operational_mode` and not on the snapshot: two states with `rinse = 1` and
`count >= 6000` that are equal in every field except
`initial_operational_mode` come out of `rinsing` with the same `rinse`,
`spin`, `count` and `rinse_cycles_completed`. -/
theorem rinsing_ignores_snapshot (s : State) (m : Nat) (hrinse : s.rinse = 1)
    (hcount : 6000 ≤ s.count) :
    (rinsing { s with initial_operational_mode := m }).rinse = (rinsing s).rinse ∧
    (rinsing { s with initial_operational_mode := m }).spin = (rinsing s).spin ∧
    (rinsing { s with initial_operational_mode := m }).count = (rinsing s).count ∧
    (rinsing { s with initial_operational_mode := m }).rinse_cycles_completed
      = (rinsing s).rinse_cycles_completed := by
  have e : rinsing { s with initial_operational_mode := m }
      = { rinsing s with initial_operational_mode := m } := by
    rw [rinsing_of_ge s hcount, rinsing_of_ge { s with initial_operational_mode := m } hcount]
    exact rinsing_complete_snapshot { s with duty_cycle := 50 } m
  rw [e]
  exact ⟨rfl, rfl, rfl, rfl⟩

/-- C19 (amended) at a concrete input: with the snapshot changed to 16 and
the live mode Normal, the rinse still ends after one pass. -/
theorem rinsing_ignores_snapshot_witness :
    (rinsing { ex_rinse_done with initial_operational_mode := 16 }).spin
      = (rinsing ex_rinse_done).spin :=
  (rinsing_ignores_snapshot ex_rinse_done 16 rfl (by decide)).2.1

/-! ## The clock at the phase changes -/

theorem main_loop_count (s : State) : (main_loop s).count = (main_phases s).count := by
  rcases main_loop_cases s with e | e
  · rw [e]
  · rw [e]
    rfl

/-- C13, as stated, fails.  `reset` after one tick of a wash moves the phase
from Washing to Idle and leaves `count = 1`; and the pass of the main loop
that moves Spinning to Finished leaves `count = 6000`. -/
theorem count_kept_counterexample :
    (run [Event.start, Event.tick 0] init).wash = 1 ∧
    (run [Event.start, Event.tick 0, Event.reset] init).wash = 0 ∧
    (run [Event.start, Event.tick 0, Event.reset] init).running = 0 ∧
    (run [Event.start, Event.tick 0, Event.reset] init).count = 1 ∧
    ex_spin_done.spin = 1 ∧ (main_loop ex_spin_done).spin = 0 ∧
    (main_loop ex_spin_done).finished = 1 ∧ (main_loop ex_spin_done).count = 6000 := by
  decide

/-- C13, amended: `count` is exactly 0 after every operation that enters a
timed phase: `start` when it starts a cycle, a pass of the main loop in
which the wash completes, and a pass in which a rinse completes (in Normal
mode, or in Extended mode with 0 or 1 rinses completed before).  `reset`, a
pass of the main loop that runs before 6000 ms (also when it resets the
machine) and the pass that moves Spinning to Finished leave `count` as it
was. -/
theorem count_zero_on_phase_entry (s : State) :
    (s.water_level ≠ 3 → s.running = 0 → (start s).count = 0) ∧
    (s.running ≠ 0 → s.wash ≠ 0 → 6000 ≤ s.count → (main_loop s).count = 0) ∧
    (s.running ≠ 0 → s.wash = 0 → s.rinse ≠ 0 → 6000 ≤ s.count →
      (s.operational_mode = 0 ∨ s.rinse_cycles_completed = 0 ∨
        s.rinse_cycles_completed = 1) → (main_loop s).count = 0) ∧
    (reset s).count = s.count ∧
    (s.running ≠ 0 → s.count < 6000 → (main_loop s).count = s.count) ∧
    (s.running ≠ 0 → s.wash = 0 → s.rinse = 0 → s.spin ≠ 0 → 6000 ≤ s.count →
      (main_loop s).count = s.count) := by
  refine ⟨?_, ?_, ?_, rfl, ?_, ?_⟩
  · intro hw hr
    simp [start, hw, hr]
  · intro hr hw hc
    rw [main_loop_count]
    exact (ctl_fields (main_phases_wash_done s hr hw hc)).2.2.2.2.2.2.2.2.2.2.2.1
  · intro hr hw hri hc hm
    rw [main_loop_count]
    by_cases hm2 : s.operational_mode = 0 ∨ (s.rinse_cycles_completed + 1) % 256 = 2
    · exact (ctl_fields
        (main_phases_rinse_to_spin s hr hw hri hc hm2)).2.2.2.2.2.2.2.2.2.2.2.1
    · have hm0 : s.operational_mode ≠ 0 := fun hn => hm2 (Or.inl hn)
      have hcy : (s.rinse_cycles_completed + 1) % 256 = 1 := by
        have : (s.rinse_cycles_completed + 1) % 256 ≠ 2 := fun hn => hm2 (Or.inr hn)
        omega
      exact (ctl_fields
        (main_phases_rinse_again s hr hw hri hc hm0 hcy)).2.2.2.2.2.2.2.2.2.2.2.1
  · intro hr hc
    rw [main_loop_count]
    exact (ctl_fields (main_phases_ctl_lt s hr hc)).2.2.2.2.2.2.2.2.2.2.2.1
  · intro hr hw hri hs hc
    rw [main_loop_count, main_phases_spin_done s hr hw hri hs hc]


/-! ## The length of a full cycle -/

theorem iter_add (pind a : Nat) (t : State) :
    ∀ b : Nat, iter pind (a + b) t = iter pind b (iter pind a t) := by
  intro b
  induction b with
  | zero => rfl
  | succ b ih =>
    show cycle_step pind (iter pind (a + b) t) = cycle_step pind (iter pind b (iter pind a t))
    rw [ih]

theorem st_of_ctl {pind w ri sp k rc : Nat} {t x : State} (e : ctl t = x)
    (hx : St pind w ri sp k rc x) : St pind w ri sp k rc t := by
  obtain ⟨f1, f2, f3, f4, f5, f6, f7, f8, f9, f10, -, f12, -, -⟩ := ctl_fields e
  unfold St
  rw [f1, f2, f3, f4, f5, f6, f7, f8, f9, f10, f12]
  exact hx

theorem st_tick {pind w ri sp k rc : Nat} {t : State} (h : St pind w ri sp k rc t)
    (hk : k + 1 < 2 ^ 32) : St pind w ri sp (k + 1) rc (TIMER1_COMPA_vect pind t) := by
  obtain ⟨g1, g2, g3, g4, g5, g6, g7, g8, g9, g10, -, g12, -⟩ := tick_effect pind t
  obtain ⟨h1, h2, h3, h4, h5, h6, h7, h8, h9, h10, h11⟩ := h
  refine ⟨g1, g2.trans h2, g3, g4.trans h4, g5.trans h5, g6.trans h6, g7.trans h7,
    g8.trans h8, g9.trans h9, g10.trans h10, ?_⟩
  rw [g12, if_pos (by rw [h5]; decide), h11]
  exact Nat.mod_eq_of_lt hk

theorem st_same {pind w ri sp k rc : Nat} {u : State} (h : St pind w ri sp k rc u) :
    main_loop u = main_phases u ∧ u.running ≠ 0 := by
  obtain ⟨h1, h2, h3, h4, h5, -⟩ := h
  exact ⟨main_loop_same u (h1.trans h2.symm) (h3.trans h4.symm), by rw [h5]; decide⟩

theorem st_loop_lt {pind w ri sp k rc : Nat} {u : State} (h : St pind w ri sp k rc u)
    (hk : k < 6000) : St pind w ri sp k rc (main_loop u) := by
  obtain ⟨e, hr⟩ := st_same h
  rw [e]
  refine st_of_ctl (main_phases_ctl_lt u hr (by rw [h.2.2.2.2.2.2.2.2.2.2]; exact hk)) ?_
  exact h

theorem st_loop_wash_done {pind w ri sp k rc : Nat} {u : State}
    (h : St pind w ri sp k rc u) (hw : w ≠ 0) (hk : 6000 ≤ k) :
    St pind 0 1 sp 0 rc (main_loop u) := by
  obtain ⟨e, hr⟩ := st_same h
  obtain ⟨h1, h2, h3, h4, h5, h6, h7, h8, h9, h10, h11⟩ := h
  rw [e]
  refine st_of_ctl (main_phases_wash_done u hr (by rw [h6]; exact hw)
    (by rw [h11]; exact hk)) ?_
  exact ⟨h1, h2, h3, h4, h5, rfl, rfl, h8, h9, h10, rfl⟩

theorem st_loop_rinse_to_spin {pind ri sp k rc : Nat} {u : State}
    (h : St pind 0 ri sp k rc u) (hri : ri ≠ 0) (hk : 6000 ≤ k)
    (hm : pind &&& 0x10 = 0 ∨ (rc + 1) % 256 = 2) :
    St pind 0 0 1 0 ((rc + 1) % 256) (main_loop u) := by
  obtain ⟨e, hr⟩ := st_same h
  obtain ⟨h1, h2, h3, h4, h5, h6, h7, h8, h9, h10, h11⟩ := h
  rw [e]
  refine st_of_ctl (main_phases_rinse_to_spin u hr h6 (by rw [h7]; exact hri)
    (by rw [h11]; exact hk) (by rw [h1, h8]; exact hm)) ?_
  exact ⟨h1, h2, h3, h4, h5, h6, rfl, by rw [← h8], rfl, h10, rfl⟩

theorem st_loop_rinse_again {pind ri sp k rc : Nat} {u : State}
    (h : St pind 0 ri sp k rc u) (hri : ri ≠ 0) (hk : 6000 ≤ k)
    (hm : pind &&& 0x10 ≠ 0) (hc : (rc + 1) % 256 = 1) :
    St pind 0 ri sp 0 1 (main_loop u) := by
  obtain ⟨e, hr⟩ := st_same h
  obtain ⟨h1, h2, h3, h4, h5, h6, h7, h8, h9, h10, h11⟩ := h
  rw [e]
  refine st_of_ctl (main_phases_rinse_again u hr h6 (by rw [h7]; exact hri)
    (by rw [h11]; exact hk) (by rw [h1]; exact hm) (by rw [h8]; exact hc)) ?_
  exact ⟨h1, h2, h3, h4, h5, h6, h7, rfl, h9, h10, rfl⟩

theorem st_loop_spin_done {pind sp k rc : Nat} {u : State}
    (h : St pind 0 0 sp k rc u) (hs : sp ≠ 0) (hk : 6000 ≤ k) :
    flags (main_loop u) = (0, 0, 0, 0, 1) := by
  obtain ⟨e, hr⟩ := st_same h
  obtain ⟨h1, h2, h3, h4, h5, h6, h7, h8, h9, h10, h11⟩ := h
  rw [e, main_phases_spin_done u hr h6 h7 (by rw [h9]; exact hs) (by rw [h11]; exact hk)]
  unfold flags
  simp only [h6, h7]

theorem st_flags {pind w ri sp k rc : Nat} {t : State} (h : St pind w ri sp k rc t) :
    flags t = (1, w, ri, sp, 0) := by
  obtain ⟨-, -, -, -, h5, h6, h7, -, h9, h10, -⟩ := h
  unfold flags
  rw [h5, h6, h7, h9, h10]

/-- Within a phase: from the clock at zero, `j < 6000` milliseconds later the
clock reads `j` and nothing else has changed. -/
theorem st_iter {pind w ri sp rc : Nat} {t : State} (h : St pind w ri sp 0 rc t) :
    ∀ j : Nat, j < 6000 → St pind w ri sp j rc (iter pind j t) := by
  intro j
  induction j with
  | zero => exact fun _ => h
  | succ j ih =>
    intro hj
    have h1 := st_tick (ih (by omega)) (by omega)
    exact st_loop_lt h1 hj

/-- The tick that ends a phase: 6000 milliseconds after the clock was at
zero it reads 6000, before the main loop has run. -/
theorem st_boundary {pind w ri sp rc : Nat} {t : State} (h : St pind w ri sp 0 rc t) :
    St pind w ri sp 6000 rc (TIMER1_COMPA_vect pind (iter pind 5999 t)) :=
  st_tick (st_iter h 5999 (by decide)) (by decide)

theorem iter_6000 (pind : Nat) (t : State) :
    iter pind 6000 t = main_loop (TIMER1_COMPA_vect pind (iter pind 5999 t)) := rfl

theorem st_start (pind : Nat) (s : State) (hrun : s.running = 0)
    (hmode : s.operational_mode = pind &&& 0x10) (hlevel : s.water_level = pind &&& 0x03)
    (herr : s.water_level ≠ 3) : St pind 1 s.rinse s.spin 0 0 (start s) := by
  unfold start
  rw [if_neg herr, if_neg (not_not.mpr hrun)]
  exact ⟨hmode, hmode, hlevel, hlevel, rfl, rfl, rfl, rfl, rfl, rfl, rfl⟩

/-- C20: from any state with `running = 0` whose live mode and water level
are those sampled from `pind` and whose water level is not Error, `n`
milliseconds (timer tick, then pass of the main loop) after `start` the
machine is washing for `n < 6000`, then rinsing, then spinning, always with
`running = 1` and `finished = 0`, and it is finished with `running = 0` for
the first time at `n = 18000` in Normal mode and at `n = 24000` in Extended
mode.  The flags are listed as (`running`, `wash`, `rinse`, `spin`,
`finished`); a `rinse` or `spin` flag that the state `s` carried while not
running (none does in a reachable state) is carried along until the cycle
sets it. -/
theorem full_cycle_length (pind : Nat) (s : State) (hrun : s.running = 0)
    (hmode : s.operational_mode = pind &&& 0x10) (hlevel : s.water_level = pind &&& 0x03)
    (herr : s.water_level ≠ 3) :
    (∀ n, n < 6000 → flags (cycle pind s n) = (1, 1, s.rinse, s.spin, 0)) ∧
    (pind &&& 0x10 = 0 →
      (∀ n, 6000 ≤ n → n < 12000 → flags (cycle pind s n) = (1, 0, 1, s.spin, 0)) ∧
      (∀ n, 12000 ≤ n → n < 18000 → flags (cycle pind s n) = (1, 0, 0, 1, 0)) ∧
      flags (cycle pind s 18000) = (0, 0, 0, 0, 1)) ∧
    (pind &&& 0x10 ≠ 0 →
      (∀ n, 6000 ≤ n → n < 18000 → flags (cycle pind s n) = (1, 0, 1, s.spin, 0)) ∧
      (∀ n, 18000 ≤ n → n < 24000 → flags (cycle pind s n) = (1, 0, 0, 1, 0)) ∧
      flags (cycle pind s 24000) = (0, 0, 0, 0, 1)) := by
  have w0 := st_start pind s hrun hmode hlevel herr
  -- the wash ends at 6000
  have r0 : St pind 0 1 s.spin 0 0 (iter pind 6000 (start s)) := by
    rw [iter_6000]
    exact st_loop_wash_done (st_boundary w0) (by decide) (by decide)
  have e1 : ∀ j, iter pind (6000 + j) (start s) = iter pind j (iter pind 6000 (start s)) :=
    iter_add pind 6000 (start s)
  refine ⟨fun n hn => st_flags (st_iter w0 n hn), fun hm => ?_, fun hm => ?_⟩
  · -- Normal mode: one rinse
    have s0 : St pind 0 0 1 0 1 (iter pind 12000 (start s)) := by
      rw [e1 6000, iter_6000]
      exact st_loop_rinse_to_spin (st_boundary r0) (by decide) (by decide) (Or.inl hm)
    have e2 : ∀ j, iter pind (12000 + j) (start s)
        = iter pind j (iter pind 12000 (start s)) := iter_add pind 12000 (start s)
    refine ⟨fun n h1 h2 => ?_, fun n h1 h2 => ?_, ?_⟩
    · obtain ⟨j, rfl⟩ := Nat.exists_eq_add_of_le h1
      unfold cycle
      rw [e1 j]
      exact st_flags (st_iter r0 j (by omega))
    · obtain ⟨j, rfl⟩ := Nat.exists_eq_add_of_le h1
      unfold cycle
      rw [e2 j]
      exact st_flags (st_iter s0 j (by omega))
    · unfold cycle
      rw [e2 6000, iter_6000]
      exact st_loop_spin_done (st_boundary s0) (by decide) (by decide)
  · -- Extended mode: two rinses
    have r1 : St pind 0 1 s.spin 0 1 (iter pind 12000 (start s)) := by
      rw [e1 6000, iter_6000]
      exact st_loop_rinse_again (st_boundary r0) (by decide) (by decide) hm (by decide)
    have e2 : ∀ j, iter pind (12000 + j) (start s)
        = iter pind j (iter pind 12000 (start s)) := iter_add pind 12000 (start s)
    have s0 : St pind 0 0 1 0 2 (iter pind 18000 (start s)) := by
      rw [e2 6000, iter_6000]
      exact st_loop_rinse_to_spin (st_boundary r1) (by decide) (by decide)
        (Or.inr (by decide))
    have e3 : ∀ j, iter pind (18000 + j) (start s)
        = iter pind j (iter pind 18000 (start s)) := iter_add pind 18000 (start s)
    refine ⟨fun n h1 h2 => ?_, fun n h1 h2 => ?_, ?_⟩
    · obtain ⟨j, rfl⟩ := Nat.exists_eq_add_of_le h1
      unfold cycle
      by_cases hj : j < 6000
      · rw [e1 j]
        exact st_flags (st_iter r0 j hj)
      · obtain ⟨i, rfl⟩ := Nat.exists_eq_add_of_le (Nat.le_of_not_lt hj)
        have e : 6000 + (6000 + i) = 12000 + i := by omega
        rw [e, e2 i]
        exact st_flags (st_iter r1 i (by omega))
    · obtain ⟨j, rfl⟩ := Nat.exists_eq_add_of_le h1
      unfold cycle
      rw [e3 j]
      exact st_flags (st_iter s0 j (by omega))
    · unfold cycle
      rw [e3 6000, iter_6000]
      exact st_loop_spin_done (st_boundary s0) (by decide) (by decide)

/-- C20 at a concrete input: started from the initial state with all
switches off (Normal mode, water level Low), the machine is still spinning
after 17999 ms and finished after 18000 ms. -/
theorem full_cycle_length_witness :
    flags (cycle 0 init 17999) = (1, 0, 0, 1, 0) ∧
    flags (cycle 0 init 18000) = (0, 0, 0, 0, 1) :=
  ⟨((full_cycle_length 0 init rfl (by decide) (by decide) (by decide)).2.1
      (by decide)).2.1 17999 (by decide) (by decide),
   ((full_cycle_length 0 init rfl (by decide) (by decide) (by decide)).2.1
      (by decide)).2.2⟩

/-! ## The rinse completions of Extended mode on the reachable states -/

theorem run_append (es fs : List Event) : ∀ s : State, run (es ++ fs) s = run fs (run es s) := by
  induction es with
  | nil => exact fun _ => rfl
  | cons e es ih => exact fun s => ih (step e s)

/-- A burst of `n` ticks with no pass of the main loop in between advances
the clock by `n` and changes nothing else. -/
theorem st_ticks {pind w ri sp rc : Nat} :
    ∀ (n k : Nat) (t : State), St pind w ri sp k rc t → k + n < 2 ^ 32 →
      St pind w ri sp (k + n) rc (run (List.replicate n (Event.tick pind)) t) := by
  intro n
  induction n with
  | zero => exact fun k t h _ => h
  | succ n ih =>
    intro k t h hk
    have h1 : St pind w ri sp (k + 1) rc (step (Event.tick pind) t) := st_tick h (by omega)
    have h2 := ih (k + 1) _ h1 (by omega)
    have e : k + 1 + n = k + (n + 1) := by omega
    rw [e] at h2
    exact h2

/-- From the start of a wash: `n1` ticks (at least 6000), one pass of the
main loop and `n2` more ticks lead into the rinse with `n2` on the clock. -/
theorem st_wash_then_rinse {pind sp : Nat} (n1 n2 : Nat) (t : State)
    (a : St pind 1 0 sp 0 0 t) (h1 : 6000 ≤ n1) (h2 : n1 < 2 ^ 32) (h3 : n2 < 2 ^ 32) :
    St pind 0 1 sp n2 0
      (run (List.replicate n1 (Event.tick pind) ++ [Event.loop]
        ++ List.replicate n2 (Event.tick pind)) t) := by
  have b := st_ticks n1 0 t a (by omega)
  have c := st_loop_wash_done b (by decide) (by omega)
  have d := st_ticks n2 0 _ c (by omega)
  rw [Nat.zero_add] at d
  rw [run_append, run_append]
  exact d

/-- The state at the end of `ex_first_rinse_due`: rinsing in Extended mode,
6000 ms on the clock, no rinse completed yet. -/
theorem first_rinse_due_state : St 16 0 1 0 6000 0 (run ex_first_rinse_due init) := by
  have a : St 16 1 0 0 0 0 (run [Event.tick 16, Event.start] init) := by
    unfold St
    decide
  have d := st_wash_then_rinse 6000 6000 _ a (by decide) (by decide) (by decide)
  have e : run ex_first_rinse_due init
      = run (List.replicate 6000 (Event.tick 16) ++ [Event.loop]
          ++ List.replicate 6000 (Event.tick 16))
        (run [Event.tick 16, Event.start] init) :=
    run_append [Event.tick 16, Event.start] _ init
  rw [e]
  exact d

/-- C6: in Extended mode (`operational_mode != 0`), for every state with
`rinse = 1` and `count >= 6000` that the machine can be in (reached from
the initial state by any sequence of `start`, `reset`, timer ticks and
passes of the main loop): if `rinse_cycles_completed = 0`, `rinsing` yields
`rinse = 1`, `spin = 0`, `count = 0` and `rinse_cycles_completed = 1`; if
`rinse_cycles_completed = 1`, it yields `rinse = 0`, `spin = 1`, `count = 0`
and `rinse_cycles_completed = 2`. -/
theorem rinsing_extended_reachable (es : List Event)
    (hmode : (run es init).operational_mode ≠ 0) (hrinse : (run es init).rinse = 1)
    (hcount : 6000 ≤ (run es init).count) :
    ((run es init).rinse_cycles_completed = 0 →
      (rinsing (run es init)).rinse = 1 ∧ (rinsing (run es init)).spin = 0 ∧
      (rinsing (run es init)).count = 0 ∧
      (rinsing (run es init)).rinse_cycles_completed = 1) ∧
    ((run es init).rinse_cycles_completed = 1 →
      (rinsing (run es init)).rinse = 0 ∧ (rinsing (run es init)).spin = 1 ∧
      (rinsing (run es init)).count = 0 ∧
      (rinsing (run es init)).rinse_cycles_completed = 2) := by
  have hinv := inv_reachable es
  have hspin : (run es init).spin = 0 := by
    unfold Inv InvF at hinv
    omega
  obtain ⟨h1, h2⟩ := rinsing_extended_completes (run es init) hmode hrinse hcount
  refine ⟨fun hc => ?_, h2⟩
  obtain ⟨a1, a2, a3, a4⟩ := h1 hc
  exact ⟨a1, a2.trans hspin, a3, a4⟩

/-- C6 at a concrete reachable state, the end of the first rinse of a cycle
started in Extended mode: the rinse restarts and `spin` is 0. -/
theorem rinsing_extended_reachable_witness :
    (run ex_first_rinse_due init).operational_mode ≠ 0 ∧
    (run ex_first_rinse_due init).rinse = 1 ∧
    6000 ≤ (run ex_first_rinse_due init).count ∧
    (rinsing (run ex_first_rinse_due init)).rinse = 1 ∧
    (rinsing (run ex_first_rinse_due init)).spin = 0 ∧
    (rinsing (run ex_first_rinse_due init)).count = 0 ∧
    (rinsing (run ex_first_rinse_due init)).rinse_cycles_completed = 1 :=
  have h := first_rinse_due_state
  have hm : (run ex_first_rinse_due init).operational_mode ≠ 0 := by
    rw [h.1]
    decide
  have hr : (run ex_first_rinse_due init).rinse = 1 := h.2.2.2.2.2.2.1
  have hc : 6000 ≤ (run ex_first_rinse_due init).count := by
    rw [h.2.2.2.2.2.2.2.2.2.2]
  ⟨hm, hr, hc,
    (rinsing_extended_reachable ex_first_rinse_due hm hr hc).1 h.2.2.2.2.2.2.2.1⟩

end WashingMachine
